import Mathlib

/-!
# neo-gogogo: RPC transport client and NEP-5 token helper

A shallow embedding of `rpc/rpcClient.go` and `nep5/nep5Helper.go`.

* Go `string` values that arrive as text are Lean `String`s; a byte is a `Nat` below 256 and a
  byte slice is a `List Nat`.
* A Go function returning `(T, error)` returns a pair whose second component is `none` for a
  `nil` error. `len(s) != 0` on a string is `s.length ≠ 0`: both say that `s` is not empty.
* Standard-library functions the code calls (`encoding/hex`, `encoding/binary`, `strconv`) are
  transcribed from the Go standard library.
* What the two files import from other packages of the repository (`helper`, `sc`, the
  response types of `rpc`) is modelled from the specification and marked as such.
-/

set_option autoImplicit false

/-! ## Go standard library -/

namespace hex

/-- Go `encoding/hex`: the value of one hexadecimal digit, `none` for any other character
(`reverseHexTable` holds `0xff` there). -/
def fromHexChar (c : Char) : Option Nat :=
  if '0'.toNat ≤ c.toNat ∧ c.toNat ≤ '9'.toNat then some (c.toNat - '0'.toNat)
  else if 'a'.toNat ≤ c.toNat ∧ c.toNat ≤ 'f'.toNat then some (c.toNat - 'a'.toNat + 10)
  else if 'A'.toNat ≤ c.toNat ∧ c.toNat ≤ 'F'.toNat then some (c.toNat - 'A'.toNat + 10)
  else none

/-- Go `hex.Decode`: pairs of digits are turned into bytes from the left; decoding stops at the
first pair holding a character that is not a hexadecimal digit, and at a trailing single
character. The result is the decoded bytes and whether an error is reported. A character
outside ASCII stands for its UTF-8 bytes, none of which is a digit, so that reading the text by
characters or by bytes gives the same bytes. -/
def Decode : List Char → List Nat × Bool
  | p :: q :: rest =>
    match fromHexChar p, fromHexChar q with
    | some a, some b =>
      let r := Decode rest
      ((a <<< 4 ||| b) :: r.1, r.2)
    | _, _ => ([], true)
  | [_] => ([], true)
  | [] => ([], false)

/-- Go `hex.DecodeString`: returns the bytes decoded before any error. -/
def DecodeString (s : String) : List Nat × Bool :=
  Decode s.toList

end hex

namespace binary

/-- Go `binary.LittleEndian.Uint64`: reads the first eight bytes; a slice shorter than eight
bytes makes the Go function panic, which is `none` here. -/
def LittleEndian.Uint64 : List Nat → Option Nat
  | b0 :: b1 :: b2 :: b3 :: b4 :: b5 :: b6 :: b7 :: _ =>
    some (b0 ||| b1 <<< 8 ||| b2 <<< 16 ||| b3 <<< 24 |||
      b4 <<< 32 ||| b5 <<< 40 ||| b6 <<< 48 ||| b7 <<< 56)
  | _ => none

end binary

namespace strconv

/-- The two kinds of `*strconv.NumError` that matter to a caller. -/
inductive NumError
  | ErrSyntax
  | ErrRange
  | ErrBase
  | ErrBitSize
  deriving DecidableEq, Repr

/-- Go `strconv.lower`: `c | ('x' - 'X')`. -/
def lower (c : Nat) : Nat := c ||| 0x20

/-- The digit a byte stands for in `ParseUint`, before the comparison with the base. -/
def digitOf (c : Nat) : Option Nat :=
  if '0'.toNat ≤ c ∧ c ≤ '9'.toNat then some (c - '0'.toNat)
  else if 'a'.toNat ≤ lower c ∧ lower c ≤ 'z'.toNat then some (lower c - 'a'.toNat + 10)
  else none

/-- The digit loop of `strconv.ParseUint`, with `n` the value accumulated so far. The loop
runs over the bytes of the text; a character outside ASCII stands for bytes from `0x80` up,
which end the loop with a syntax error just as the character does here. -/
def parseUintLoop (base cutoff maxVal : Nat) : List Char → Nat → Nat × Option NumError
  | [], n => (n, none)
  | c :: cs, n =>
    match digitOf c.toNat with
    | none => (0, some NumError.ErrSyntax)
    | some d =>
      if d ≥ base then (0, some NumError.ErrSyntax)
      else if n ≥ cutoff then (maxVal, some NumError.ErrRange)
      else
        let n0 := n * base % 2 ^ 64
        let n1 := (n0 + d) % 2 ^ 64
        if n1 < n0 ∨ n1 > maxVal then (maxVal, some NumError.ErrRange)
        else parseUintLoop base cutoff maxVal cs n1

/-- Go `strconv.ParseUint(s, base, bitSize)` for an explicit base between 2 and 36 and a bit
size between 1 and 64 (the helper calls it with base 10 and bit size 8). -/
def ParseUint (s : String) (base bitSize : Nat) : Nat × Option NumError :=
  if s = "" then (0, some NumError.ErrSyntax)
  else if ¬ (2 ≤ base ∧ base ≤ 36) then (0, some NumError.ErrBase)
  else if ¬ (1 ≤ bitSize ∧ bitSize ≤ 64) then (0, some NumError.ErrBitSize)
  else
    let cutoff := (2 ^ 64 - 1) / base + 1
    let maxVal := 2 ^ bitSize - 1
    parseUintLoop base cutoff maxVal s.toList 0

/-- Go `strconv.ParseBool`. -/
def ParseBool (str : String) : Bool × Option NumError :=
  if str = "1" ∨ str = "t" ∨ str = "T" ∨ str = "true" ∨ str = "TRUE" ∨ str = "True" then
    (true, none)
  else if str = "0" ∨ str = "f" ∨ str = "F" ∨ str = "false" ∨ str = "FALSE" ∨
      str = "False" then
    (false, none)
  else (false, some NumError.ErrSyntax)

end strconv

namespace fmt

/-- The error value `fmt.Errorf(format)` returns when called without operands, kept as the
format string it was built from. Its text is the format itself when the format has no `%`. -/
structure FormatError where
  format : String
  deriving DecidableEq, Repr

/-- Go `fmt.Errorf(format)` without operands. -/
def Errorf (format : String) : FormatError := ⟨format⟩

end fmt

/-! ## Package `rpc` -/

namespace rpc

/-- Modelled from the spec: the error object `{code, message}` of a response envelope (the
response types of package `rpc` are declared outside `rpcClient.go`). -/
structure RpcError where
  Code : Int
  Message : String
  deriving DecidableEq, Repr

/-- Modelled from the spec: the error slot every response type embeds. -/
structure ErrorResponse where
  Error : RpcError
  deriving DecidableEq, Repr

/-- Modelled from the spec: a response envelope, the embedded error slot next to a
method-specific result payload of type `ρ`. -/
structure Response (ρ : Type) where
  ErrorResponse : ErrorResponse
  Result : ρ
  deriving DecidableEq, Repr

/-- Modelled from the spec: one tagged value `{type, value}` of an execution result stack. -/
structure InvokeStack where
  Type_ : String
  Value : String
  deriving DecidableEq, Repr

/-- Modelled from the spec: the result payload `{state, stack}` of a script invocation. -/
structure InvokeResult where
  State : String
  Stack : List InvokeStack
  deriving DecidableEq, Repr, Inhabited

/-- Modelled from the spec: the response of `invokescript`. -/
abbrev InvokeScriptResponse := Response InvokeResult

/-- A Go `error` handed back by the HTTP or JSON layer, given by the text of its `Error()`. -/
structure GoError where
  Error : String
  deriving DecidableEq, Repr

/-- One positional parameter of a request, an `interface{}` value: a string, an `int` (the
literal flags), a `uint32`, a `float32` given by its bit pattern, or the variadic argument
slice of `InvokeFunction`. -/
inductive Param
  | string (s : String)
  | int (i : Int)
  | uint32 (n : Nat)
  | float32 (bits : Nat)
  | slice (args : List Param)
  deriving Repr

/-- Modelled from the spec: the request envelope built by `NewRequest(method, params)`, with the
method name and the ordered parameter list; the protocol version is the constant `"2.0"` and the
numeric id, which the spec leaves open, is not represented. -/
structure RpcRequest where
  JsonRpc : String
  Method : String
  Params : List Param
  deriving Repr

/-- Modelled from the spec: `NewRequest(method, params)`. -/
def NewRequest (method : String) (params : List Param) : RpcRequest :=
  { JsonRpc := "2.0", Method := method, Params := params }

/-- Go `textproto.validHeaderFieldByte`: the bytes a header key may hold, which are the ASCII
letters and digits and the marks `!#$%&*+-.^_|~`, the apostrophe and the grave accent. -/
def validHeaderFieldByte (c : Nat) : Bool :=
  (48 ≤ c && c ≤ 57) || (65 ≤ c && c ≤ 90) || (97 ≤ c && c ≤ 122) ||
    [33, 35, 36, 37, 38, 39, 42, 43, 45, 46, 94, 95, 96, 124, 126].contains c

/-- The loop of Go `textproto.canonicalMIMEHeaderKey`: a letter is made upper case at the start
and after each dash, and lower case elsewhere. -/
def canonicalLoop : Bool → List Char → List Char
  | _, [] => []
  | upper, c :: cs =>
    let c1 := if upper then c.toUpper else c.toLower
    c1 :: canonicalLoop (c1 = '-') cs

/-- Go `textproto.CanonicalMIMEHeaderKey`: a key holding a byte that is no header field byte is
returned unchanged. -/
def CanonicalMIMEHeaderKey (s : String) : String :=
  if s.toList.all (fun c => validHeaderFieldByte c.toNat) then
    String.mk (canonicalLoop true s.toList)
  else s

/-- An `*http.Request` as far as `makeRequest` touches it: verb, URL, body bytes, the header
and the `Close` flag. The header, a Go map from canonical key to the values stored under it, is
kept as a list with one entry per key; the order of the entries has no meaning. -/
structure HttpRequest where
  Method : String
  URL : String
  Body : List Nat
  Header : List (String × List String)
  Close : Bool
  deriving DecidableEq, Repr

/-- Go `Header.Add`: appends the value to those stored under the canonical form of the key. -/
def HttpRequest.HeaderAdd (req : HttpRequest) (key value : String) : HttpRequest :=
  let k := CanonicalMIMEHeaderKey key
  if req.Header.any (fun kv => kv.1 = k) then
    { req with
      Header := req.Header.map (fun kv => if kv.1 = k then (kv.1, kv.2 ++ [value]) else kv) }
  else { req with Header := req.Header ++ [(k, [value])] }

/-- Go `Header.Set`: makes the value the only one stored under the canonical form of the
key. -/
def HttpRequest.HeaderSet (req : HttpRequest) (key value : String) : HttpRequest :=
  let k := CanonicalMIMEHeaderKey key
  if req.Header.any (fun kv => kv.1 = k) then
    { req with Header := req.Header.map (fun kv => if kv.1 = k then (kv.1, [value]) else kv) }
  else { req with Header := req.Header ++ [(k, [value])] }

/-- The standard-library calls of `makeRequest` whose outcome the client does not control:
`json.Marshal` (its error is dropped by the code, so only the bytes count) and
`http.NewRequest`. -/
structure Lib where
  Marshal : RpcRequest → List Nat
  NewRequest : String → String → List Nat → Except GoError HttpRequest

/-- The outcome of `json.NewDecoder(body).Decode(&out)`: the target as the decoder left it and
the error it returned. -/
abbrev Decoder (α : Type) := List Nat → α → α × Option GoError

/-- The interface `IHttpClient`: `Do` performs one exchange with the node. The state `σ` stands
for everything behind the interface (connection, node, mock); the answer is the body of the
response or a transport error. -/
structure IHttpClient (σ : Type) where
  Do : HttpRequest → σ → Except GoError (List Nat) × σ

/-- The client `RpcClient`; `Endpoint` is the text `Endpoint.String()` yields. -/
structure RpcClient (σ : Type) where
  Endpoint : String
  httpClient : IHttpClient σ

/-- The state an operation runs in: the state behind the HTTP interface together with two
records kept for observation only, the requests `makeRequest` was invoked with and the HTTP
requests handed to `Do`, both oldest first. -/
structure World (σ : Type) where
  net : σ
  requests : List RpcRequest
  exchanges : List HttpRequest

/-- What `makeRequest` leaves behind: the target `out`, the returned error and the state. -/
structure Outcome (α σ : Type) where
  out : α
  err : Option GoError
  world : World σ

/-- The zero value `T{}` of a response type. -/
def Response.zero {ρ : Type} [Inhabited ρ] : Response ρ :=
  { ErrorResponse := { Error := { Code := 0, Message := "" } }, Result := default }

variable {σ ρ α : Type} [Inhabited ρ]

/-- The operation `RpcClient.makeRequest`. -/
def makeRequest (lib : Lib) (json : Decoder α) (n : RpcClient σ) (method : String)
    (params : List Param) (out : α) (w : World σ) : Outcome α σ :=
  let request := NewRequest method params
  let w := { w with requests := w.requests ++ [request] }
  let jsonValue := lib.Marshal request
  match lib.NewRequest "POST" n.Endpoint jsonValue with
  | Except.error err => { out := out, err := some err, world := w }
  | Except.ok req =>
    let req := req.HeaderAdd "content-type" "application/json"
    let req := req.HeaderSet "Connection" "close"
    let req := { req with Close := true }
    let w := { w with exchanges := w.exchanges ++ [req] }
    match n.httpClient.Do req w.net with
    | (Except.error err, net) => { out := out, err := some err, world := { w with net := net } }
    | (Except.ok body, net) =>
      let decoded := json body out
      match decoded.2 with
      | some err => { out := decoded.1, err := some err, world := { w with net := net } }
      | none => { out := decoded.1, err := none, world := { w with net := net } }

/-- The operation `RpcClient.ClaimGas`. -/
def ClaimGas (lib : Lib) (json : Decoder (Response ρ)) (n : RpcClient σ) (address : String)
    (w : World σ) : Response ρ × World σ :=
  let response : Response ρ := Response.zero
  let params : List Param := [Param.string address]
  let r := makeRequest lib json n "claimgas" params response w
  let response :=
    match r.err with
    | some err => { r.out with ErrorResponse := { Error := { Code := 0, Message := err.Error } } }
    | none => r.out
  match r.err with
  | some err =>
    ({ response with ErrorResponse := { Error := { Code := 0, Message := err.Error } } },
      r.world)
  | none => (response, r.world)

/-- The operation `RpcClient.GetAccountState`. -/
def GetAccountState (lib : Lib) (json : Decoder (Response ρ)) (n : RpcClient σ) (address : String)
    (w : World σ) : Response ρ × World σ :=
  let response : Response ρ := Response.zero
  let params : List Param := [Param.string address]
  let r := makeRequest lib json n "getaccountstate" params response w
  match r.err with
  | some err =>
    ({ r.out with ErrorResponse := { Error := { Code := 0, Message := err.Error } } }, r.world)
  | none => (r.out, r.world)

/-- The operation `RpcClient.GetApplicationLog`. -/
def GetApplicationLog (lib : Lib) (json : Decoder (Response ρ)) (n : RpcClient σ) (txId : String)
    (w : World σ) : Response ρ × World σ :=
  let response : Response ρ := Response.zero
  let params : List Param := [Param.string txId]
  let r := makeRequest lib json n "getapplicationlog" params response w
  match r.err with
  | some err =>
    ({ r.out with ErrorResponse := { Error := { Code := 0, Message := err.Error } } }, r.world)
  | none => (r.out, r.world)

/-- The operation `RpcClient.GetAssetState`. -/
def GetAssetState (lib : Lib) (json : Decoder (Response ρ)) (n : RpcClient σ) (assetId : String)
    (w : World σ) : Response ρ × World σ :=
  let response : Response ρ := Response.zero
  let params : List Param := [Param.string assetId]
  let r := makeRequest lib json n "getassetstate" params response w
  match r.err with
  | some err =>
    ({ r.out with ErrorResponse := { Error := { Code := 0, Message := err.Error } } }, r.world)
  | none => (r.out, r.world)

/-- The operation `RpcClient.GetBalance`. -/
def GetBalance (lib : Lib) (json : Decoder (Response ρ)) (n : RpcClient σ) (assetId : String)
    (w : World σ) : Response ρ × World σ :=
  let response : Response ρ := Response.zero
  let params : List Param := [Param.string assetId]
  let r := makeRequest lib json n "getbalance" params response w
  match r.err with
  | some err =>
    ({ r.out with ErrorResponse := { Error := { Code := 0, Message := err.Error } } }, r.world)
  | none => (r.out, r.world)

/-- The operation `RpcClient.GetBestBlockHash`. -/
def GetBestBlockHash (lib : Lib) (json : Decoder (Response ρ)) (n : RpcClient σ)
    (w : World σ) : Response ρ × World σ :=
  let response : Response ρ := Response.zero
  let params : List Param := []
  let r := makeRequest lib json n "getbestblockhash" params response w
  match r.err with
  | some err =>
    ({ r.out with ErrorResponse := { Error := { Code := 0, Message := err.Error } } }, r.world)
  | none => (r.out, r.world)

/-- The operation `RpcClient.GetBlockByHash`. -/
def GetBlockByHash (lib : Lib) (json : Decoder (Response ρ)) (n : RpcClient σ)
    (blockHash : String)
    (w : World σ) : Response ρ × World σ :=
  let response : Response ρ := Response.zero
  let params : List Param := [Param.string blockHash, Param.int 1]
  let r := makeRequest lib json n "getblock" params response w
  match r.err with
  | some err =>
    ({ r.out with ErrorResponse := { Error := { Code := 0, Message := err.Error } } }, r.world)
  | none => (r.out, r.world)

/-- The operation `RpcClient.GetBlockByIndex`. -/
def GetBlockByIndex (lib : Lib) (json : Decoder (Response ρ)) (n : RpcClient σ) (index : Nat)
    (w : World σ) : Response ρ × World σ :=
  let response : Response ρ := Response.zero
  let params : List Param := [Param.uint32 index, Param.int 1]
  let r := makeRequest lib json n "getblock" params response w
  match r.err with
  | some err =>
    ({ r.out with ErrorResponse := { Error := { Code := 0, Message := err.Error } } }, r.world)
  | none => (r.out, r.world)

/-- The operation `RpcClient.GetBlockCount`. -/
def GetBlockCount (lib : Lib) (json : Decoder (Response ρ)) (n : RpcClient σ)
    (w : World σ) : Response ρ × World σ :=
  let response : Response ρ := Response.zero
  let params : List Param := []
  let r := makeRequest lib json n "getblockcount" params response w
  match r.err with
  | some err =>
    ({ r.out with ErrorResponse := { Error := { Code := 0, Message := err.Error } } }, r.world)
  | none => (r.out, r.world)

/-- The operation `RpcClient.GetBlockHeaderByHash`. -/
def GetBlockHeaderByHash (lib : Lib) (json : Decoder (Response ρ)) (n : RpcClient σ)
    (blockHash : String)
    (w : World σ) : Response ρ × World σ :=
  let response : Response ρ := Response.zero
  let params : List Param := [Param.string blockHash, Param.int 1]
  let r := makeRequest lib json n "getblockheader" params response w
  match r.err with
  | some err =>
    ({ r.out with ErrorResponse := { Error := { Code := 0, Message := err.Error } } }, r.world)
  | none => (r.out, r.world)

/-- The operation `RpcClient.GetBlockHash`. -/
def GetBlockHash (lib : Lib) (json : Decoder (Response String)) (n : RpcClient σ) (index : Nat)
    (w : World σ) : Response String × World σ :=
  let response : Response String := Response.zero
  let params : List Param := [Param.uint32 index]
  let r := makeRequest lib json n "getblockhash" params response w
  match r.err with
  | some err =>
    ({ r.out with ErrorResponse := { Error := { Code := 0, Message := err.Error } } }, r.world)
  | none => (r.out, r.world)

/-- The operation `RpcClient.GetBlockHeaderByIndex`: asks for the hash of the block, then for
the header of that hash. -/
def GetBlockHeaderByIndex (lib : Lib) (jsonHash : Decoder (Response String))
    (json : Decoder (Response ρ)) (n : RpcClient σ) (index : Nat)
    (w : World σ) : Response ρ × World σ :=
  let r := GetBlockHash lib jsonHash n index w
  let hash := r.1.Result
  GetBlockHeaderByHash lib json n hash r.2

/-- The operation `RpcClient.GetClaimable`. -/
def GetClaimable (lib : Lib) (json : Decoder (Response ρ)) (n : RpcClient σ) (address : String)
    (w : World σ) : Response ρ × World σ :=
  let response : Response ρ := Response.zero
  let params : List Param := [Param.string address]
  let r := makeRequest lib json n "getclaimable" params response w
  match r.err with
  | some err =>
    ({ r.out with ErrorResponse := { Error := { Code := 0, Message := err.Error } } }, r.world)
  | none => (r.out, r.world)

/-- The operation `RpcClient.GetConnectionCount`. -/
def GetConnectionCount (lib : Lib) (json : Decoder (Response ρ)) (n : RpcClient σ)
    (w : World σ) : Response ρ × World σ :=
  let response : Response ρ := Response.zero
  let params : List Param := []
  let r := makeRequest lib json n "getconnectioncount" params response w
  match r.err with
  | some err =>
    ({ r.out with ErrorResponse := { Error := { Code := 0, Message := err.Error } } }, r.world)
  | none => (r.out, r.world)

/-- The operation `RpcClient.GetContractState`. -/
def GetContractState (lib : Lib) (json : Decoder (Response ρ)) (n : RpcClient σ)
    (scriptHash : String)
    (w : World σ) : Response ρ × World σ :=
  let response : Response ρ := Response.zero
  let params : List Param := [Param.string scriptHash]
  let r := makeRequest lib json n "getcontractstate" params response w
  match r.err with
  | some err =>
    ({ r.out with ErrorResponse := { Error := { Code := 0, Message := err.Error } } }, r.world)
  | none => (r.out, r.world)

/-- The operation `RpcClient.GetNep5Balances`. -/
def GetNep5Balances (lib : Lib) (json : Decoder (Response ρ)) (n : RpcClient σ) (address : String)
    (w : World σ) : Response ρ × World σ :=
  let response : Response ρ := Response.zero
  let params : List Param := [Param.string address]
  let r := makeRequest lib json n "getnep5balances" params response w
  match r.err with
  | some err =>
    ({ r.out with ErrorResponse := { Error := { Code := 0, Message := err.Error } } }, r.world)
  | none => (r.out, r.world)

/-- The operation `RpcClient.GetNep5Transfers`. -/
def GetNep5Transfers (lib : Lib) (json : Decoder (Response ρ)) (n : RpcClient σ)
    (address : String)
    (w : World σ) : Response ρ × World σ :=
  let response : Response ρ := Response.zero
  let params : List Param := [Param.string address]
  let r := makeRequest lib json n "getnep5balances" params response w
  match r.err with
  | some err =>
    ({ r.out with ErrorResponse := { Error := { Code := 0, Message := err.Error } } }, r.world)
  | none => (r.out, r.world)

/-- The operation `RpcClient.GetNewAddress`. -/
def GetNewAddress (lib : Lib) (json : Decoder (Response ρ)) (n : RpcClient σ)
    (w : World σ) : Response ρ × World σ :=
  let response : Response ρ := Response.zero
  let params : List Param := []
  let r := makeRequest lib json n "getnewaddress" params response w
  match r.err with
  | some err =>
    ({ r.out with ErrorResponse := { Error := { Code := 0, Message := err.Error } } }, r.world)
  | none => (r.out, r.world)

/-- The operation `RpcClient.GetRawMemPool`. -/
def GetRawMemPool (lib : Lib) (json : Decoder (Response ρ)) (n : RpcClient σ)
    (w : World σ) : Response ρ × World σ :=
  let response : Response ρ := Response.zero
  let params : List Param := []
  let r := makeRequest lib json n "getrawmempool" params response w
  match r.err with
  | some err =>
    ({ r.out with ErrorResponse := { Error := { Code := 0, Message := err.Error } } }, r.world)
  | none => (r.out, r.world)

/-- The operation `RpcClient.GetRawTransaction`. -/
def GetRawTransaction (lib : Lib) (json : Decoder (Response ρ)) (n : RpcClient σ) (txid : String)
    (w : World σ) : Response ρ × World σ :=
  let response : Response ρ := Response.zero
  let params : List Param := [Param.string txid, Param.int 1]
  let r := makeRequest lib json n "getrawtransaction" params response w
  match r.err with
  | some err =>
    ({ r.out with ErrorResponse := { Error := { Code := 0, Message := err.Error } } }, r.world)
  | none => (r.out, r.world)

/-- The operation `RpcClient.GetStorage`. -/
def GetStorage (lib : Lib) (json : Decoder (Response ρ)) (n : RpcClient σ)
    (scripthash : String) (key : String)
    (w : World σ) : Response ρ × World σ :=
  let response : Response ρ := Response.zero
  let params : List Param := [Param.string scripthash, Param.string key]
  let r := makeRequest lib json n "getstorage" params response w
  match r.err with
  | some err =>
    ({ r.out with ErrorResponse := { Error := { Code := 0, Message := err.Error } } }, r.world)
  | none => (r.out, r.world)

/-- The operation `RpcClient.GetTransactionHeight`. -/
def GetTransactionHeight (lib : Lib) (json : Decoder (Response ρ)) (n : RpcClient σ)
    (txid : String)
    (w : World σ) : Response ρ × World σ :=
  let response : Response ρ := Response.zero
  let params : List Param := [Param.string txid]
  let r := makeRequest lib json n "gettransactionheight" params response w
  match r.err with
  | some err =>
    ({ r.out with ErrorResponse := { Error := { Code := 0, Message := err.Error } } }, r.world)
  | none => (r.out, r.world)

/-- The operation `RpcClient.GetTxOut`. -/
def GetTxOut (lib : Lib) (json : Decoder (Response ρ)) (n : RpcClient σ)
    (txid : String) (index : Int)
    (w : World σ) : Response ρ × World σ :=
  let response : Response ρ := Response.zero
  let params : List Param := [Param.string txid, Param.int index]
  let r := makeRequest lib json n "gettxout" params response w
  match r.err with
  | some err =>
    ({ r.out with ErrorResponse := { Error := { Code := 0, Message := err.Error } } }, r.world)
  | none => (r.out, r.world)

/-- The operation `RpcClient.GetPeers`. -/
def GetPeers (lib : Lib) (json : Decoder (Response ρ)) (n : RpcClient σ)
    (w : World σ) : Response ρ × World σ :=
  let response : Response ρ := Response.zero
  let params : List Param := []
  let r := makeRequest lib json n "getpeers" params response w
  match r.err with
  | some err =>
    ({ r.out with ErrorResponse := { Error := { Code := 0, Message := err.Error } } }, r.world)
  | none => (r.out, r.world)

/-- The operation `RpcClient.GetUnclaimedGas`. -/
def GetUnclaimedGas (lib : Lib) (json : Decoder (Response ρ)) (n : RpcClient σ)
    (w : World σ) : Response ρ × World σ :=
  let response : Response ρ := Response.zero
  let params : List Param := []
  let r := makeRequest lib json n "getunclaimedgas" params response w
  match r.err with
  | some err =>
    ({ r.out with ErrorResponse := { Error := { Code := 0, Message := err.Error } } }, r.world)
  | none => (r.out, r.world)

/-- The operation `RpcClient.GetUnclaimed`. -/
def GetUnclaimed (lib : Lib) (json : Decoder (Response ρ)) (n : RpcClient σ) (address : String)
    (w : World σ) : Response ρ × World σ :=
  let response : Response ρ := Response.zero
  let params : List Param := [Param.string address]
  let r := makeRequest lib json n "getunclaimed" params response w
  match r.err with
  | some err =>
    ({ r.out with ErrorResponse := { Error := { Code := 0, Message := err.Error } } }, r.world)
  | none => (r.out, r.world)

/-- The operation `RpcClient.GetUnspents`. -/
def GetUnspents (lib : Lib) (json : Decoder (Response ρ)) (n : RpcClient σ) (adddress : String)
    (w : World σ) : Response ρ × World σ :=
  let response : Response ρ := Response.zero
  let params : List Param := [Param.string adddress]
  let r := makeRequest lib json n "getunspents" params response w
  match r.err with
  | some err =>
    ({ r.out with ErrorResponse := { Error := { Code := 0, Message := err.Error } } }, r.world)
  | none => (r.out, r.world)

/-- The operation `RpcClient.GetValidators`. -/
def GetValidators (lib : Lib) (json : Decoder (Response ρ)) (n : RpcClient σ)
    (w : World σ) : Response ρ × World σ :=
  let response : Response ρ := Response.zero
  let params : List Param := []
  let r := makeRequest lib json n "getvalidators" params response w
  match r.err with
  | some err =>
    ({ r.out with ErrorResponse := { Error := { Code := 0, Message := err.Error } } }, r.world)
  | none => (r.out, r.world)

/-- The operation `RpcClient.GetVersion`. -/
def GetVersion (lib : Lib) (json : Decoder (Response ρ)) (n : RpcClient σ)
    (w : World σ) : Response ρ × World σ :=
  let response : Response ρ := Response.zero
  let params : List Param := []
  let r := makeRequest lib json n "getversion" params response w
  match r.err with
  | some err =>
    ({ r.out with ErrorResponse := { Error := { Code := 0, Message := err.Error } } }, r.world)
  | none => (r.out, r.world)

/-- The operation `RpcClient.GetWalletHeight`. -/
def GetWalletHeight (lib : Lib) (json : Decoder (Response ρ)) (n : RpcClient σ)
    (w : World σ) : Response ρ × World σ :=
  let response : Response ρ := Response.zero
  let params : List Param := []
  let r := makeRequest lib json n "getwalletheight" params response w
  match r.err with
  | some err =>
    ({ r.out with ErrorResponse := { Error := { Code := 0, Message := err.Error } } }, r.world)
  | none => (r.out, r.world)

/-- The operation `RpcClient.ImportPrivKey`. -/
def ImportPrivKey (lib : Lib) (json : Decoder (Response ρ)) (n : RpcClient σ) (wif : String)
    (w : World σ) : Response ρ × World σ :=
  let response : Response ρ := Response.zero
  let params : List Param := [Param.string wif]
  let r := makeRequest lib json n "importprivkey" params response w
  match r.err with
  | some err =>
    ({ r.out with ErrorResponse := { Error := { Code := 0, Message := err.Error } } }, r.world)
  | none => (r.out, r.world)

/-- The operation `RpcClient.InvokeFunction`; `args` is `none` for a nil variadic slice. -/
def InvokeFunction (lib : Lib) (json : Decoder (Response ρ)) (n : RpcClient σ)
    (scriptHash method checkWitnessHashes : String) (args : Option (List Param))
    (w : World σ) : Response ρ × World σ :=
  let response : Response ρ := Response.zero
  let params : List Param :=
    match args with
    | some args =>
      [Param.string scriptHash, Param.string method, Param.slice args,
        Param.string checkWitnessHashes]
    | none => [Param.string scriptHash, Param.string method, Param.string checkWitnessHashes]
  let r := makeRequest lib json n "invokefunction" params response w
  match r.err with
  | some err =>
    ({ r.out with ErrorResponse := { Error := { Code := 0, Message := err.Error } } }, r.world)
  | none => (r.out, r.world)

/-- The operation `RpcClient.InvokeScript`. -/
def InvokeScript (lib : Lib) (json : Decoder (Response InvokeResult)) (n : RpcClient σ)
    (scriptInHex : String) (checkWitnessHashes : String)
    (w : World σ) : Response InvokeResult × World σ :=
  let response : Response InvokeResult := Response.zero
  let params : List Param := [Param.string scriptInHex, Param.string checkWitnessHashes]
  let r := makeRequest lib json n "invokescript" params response w
  match r.err with
  | some err =>
    ({ r.out with ErrorResponse := { Error := { Code := 0, Message := err.Error } } }, r.world)
  | none => (r.out, r.world)

/-- The operation `RpcClient.ListPlugins`. -/
def ListPlugins (lib : Lib) (json : Decoder (Response ρ)) (n : RpcClient σ)
    (w : World σ) : Response ρ × World σ :=
  let response : Response ρ := Response.zero
  let params : List Param := []
  let r := makeRequest lib json n "listplugins" params response w
  match r.err with
  | some err =>
    ({ r.out with ErrorResponse := { Error := { Code := 0, Message := err.Error } } }, r.world)
  | none => (r.out, r.world)

/-- The operation `RpcClient.ListAddress`. -/
def ListAddress (lib : Lib) (json : Decoder (Response ρ)) (n : RpcClient σ)
    (w : World σ) : Response ρ × World σ :=
  let response : Response ρ := Response.zero
  let params : List Param := []
  let r := makeRequest lib json n "listaddress" params response w
  match r.err with
  | some err =>
    ({ r.out with ErrorResponse := { Error := { Code := 0, Message := err.Error } } }, r.world)
  | none => (r.out, r.world)

/-- The operation `RpcClient.SendFrom`. The `float32` fee is given by its bit pattern. -/
def SendFrom (lib : Lib) (json : Decoder (Response ρ)) (n : RpcClient σ)
    (assetId : String) (from_ : String) (to_ : String) (amount : Nat) (fee : Nat)
    (changeAddress : String)
    (w : World σ) : Response ρ × World σ :=
  let response : Response ρ := Response.zero
  let params : List Param :=
    [Param.string assetId,
    Param.string from_,
    Param.string to_,
    Param.uint32 amount,
    Param.float32 fee,
    Param.string changeAddress]
  let r := makeRequest lib json n "sendfrom" params response w
  match r.err with
  | some err =>
    ({ r.out with ErrorResponse := { Error := { Code := 0, Message := err.Error } } }, r.world)
  | none => (r.out, r.world)

/-- The operation `RpcClient.SendRawTransaction`. -/
def SendRawTransaction (lib : Lib) (json : Decoder (Response ρ)) (n : RpcClient σ)
    (rawTransactionInHex : String)
    (w : World σ) : Response ρ × World σ :=
  let response : Response ρ := Response.zero
  let params : List Param := [Param.string rawTransactionInHex, Param.int 1]
  let r := makeRequest lib json n "sendrawtransaction" params response w
  match r.err with
  | some err =>
    ({ r.out with ErrorResponse := { Error := { Code := 0, Message := err.Error } } }, r.world)
  | none => (r.out, r.world)

/-- The operation `RpcClient.SendToAddress`. The `float32` fee is given by its bit pattern. -/
def SendToAddress (lib : Lib) (json : Decoder (Response ρ)) (n : RpcClient σ)
    (assetId : String) (to_ : String) (amount : Nat) (fee : Nat) (changeAddress : String)
    (w : World σ) : Response ρ × World σ :=
  let response : Response ρ := Response.zero
  let params : List Param :=
    [Param.string assetId,
    Param.string to_,
    Param.uint32 amount,
    Param.float32 fee,
    Param.string changeAddress]
  let r := makeRequest lib json n "sendtoaddress" params response w
  match r.err with
  | some err =>
    ({ r.out with ErrorResponse := { Error := { Code := 0, Message := err.Error } } }, r.world)
  | none => (r.out, r.world)

/-- The operation `RpcClient.SubmitBlock`. -/
def SubmitBlock (lib : Lib) (json : Decoder (Response ρ)) (n : RpcClient σ) (blockHex : String)
    (w : World σ) : Response ρ × World σ :=
  let response : Response ρ := Response.zero
  let params : List Param := [Param.string blockHex]
  let r := makeRequest lib json n "submitblock" params response w
  match r.err with
  | some err =>
    ({ r.out with ErrorResponse := { Error := { Code := 0, Message := err.Error } } }, r.world)
  | none => (r.out, r.world)

/-- The operation `RpcClient.ValidateAddress`. -/
def ValidateAddress (lib : Lib) (json : Decoder (Response ρ)) (n : RpcClient σ) (address : String)
    (w : World σ) : Response ρ × World σ :=
  let response : Response ρ := Response.zero
  let params : List Param := [Param.string address]
  let r := makeRequest lib json n "validateaddress" params response w
  match r.err with
  | some err =>
    ({ r.out with ErrorResponse := { Error := { Code := 0, Message := err.Error } } }, r.world)
  | none => (r.out, r.world)

/-- The operation `RpcClient.GetProof`. -/
def GetProof (lib : Lib) (json : Decoder (Response ρ)) (n : RpcClient σ)
    (stateroot : String) (contractScriptHash : String) (storeKey : String)
    (w : World σ) : Response ρ × World σ :=
  let response : Response ρ := Response.zero
  let params : List Param :=
    [Param.string stateroot,
    Param.string contractScriptHash,
    Param.string storeKey]
  let r := makeRequest lib json n "getproof" params response w
  match r.err with
  | some err =>
    ({ r.out with ErrorResponse := { Error := { Code := 0, Message := err.Error } } }, r.world)
  | none => (r.out, r.world)

/-- The operation `RpcClient.GetStateHeight`. -/
def GetStateHeight (lib : Lib) (json : Decoder (Response ρ)) (n : RpcClient σ)
    (w : World σ) : Response ρ × World σ :=
  let response : Response ρ := Response.zero
  let params : List Param := []
  let r := makeRequest lib json n "getstateheight" params response w
  match r.err with
  | some err =>
    ({ r.out with ErrorResponse := { Error := { Code := 0, Message := err.Error } } }, r.world)
  | none => (r.out, r.world)

/-- The operation `RpcClient.GetStateRootByIndex`. -/
def GetStateRootByIndex (lib : Lib) (json : Decoder (Response ρ)) (n : RpcClient σ)
    (blockHeight : Nat)
    (w : World σ) : Response ρ × World σ :=
  let response : Response ρ := Response.zero
  let params : List Param := [Param.uint32 blockHeight]
  let r := makeRequest lib json n "getstateroot" params response w
  match r.err with
  | some err =>
    ({ r.out with ErrorResponse := { Error := { Code := 0, Message := err.Error } } }, r.world)
  | none => (r.out, r.world)

/-- The operation `RpcClient.GetStateRootByHash`. -/
def GetStateRootByHash (lib : Lib) (json : Decoder (Response ρ)) (n : RpcClient σ)
    (blockHash : String)
    (w : World σ) : Response ρ × World σ :=
  let response : Response ρ := Response.zero
  let params : List Param := [Param.string blockHash]
  let r := makeRequest lib json n "getstateroot" params response w
  match r.err with
  | some err =>
    ({ r.out with ErrorResponse := { Error := { Code := 0, Message := err.Error } } }, r.world)
  | none => (r.out, r.world)

/-- The decoders of the response types: one for the hash response of `getblockhash`, one for the
script-invocation response, and one for the response type with payload `ρ`. -/
structure Json (ρ : Type) where
  Decode : Decoder (Response ρ)
  DecodeHash : Decoder (Response String)
  DecodeInvoke : Decoder InvokeScriptResponse

/-- A call of a public operation of the client: the operation and its arguments. -/
inductive Op
  | ClaimGas (address : String)
  | GetAccountState (address : String)
  | GetApplicationLog (txId : String)
  | GetAssetState (assetId : String)
  | GetBalance (assetId : String)
  | GetBestBlockHash
  | GetBlockByHash (blockHash : String)
  | GetBlockByIndex (index : Nat)
  | GetBlockCount
  | GetBlockHeaderByHash (blockHash : String)
  | GetBlockHeaderByIndex (index : Nat)
  | GetBlockHash (index : Nat)
  | GetClaimable (address : String)
  | GetConnectionCount
  | GetContractState (scriptHash : String)
  | GetNep5Balances (address : String)
  | GetNep5Transfers (address : String)
  | GetNewAddress
  | GetRawMemPool
  | GetRawTransaction (txid : String)
  | GetStorage (scripthash : String) (key : String)
  | GetTransactionHeight (txid : String)
  | GetTxOut (txid : String) (index : Int)
  | GetPeers
  | GetUnclaimedGas
  | GetUnclaimed (address : String)
  | GetUnspents (adddress : String)
  | GetValidators
  | GetVersion
  | GetWalletHeight
  | ImportPrivKey (wif : String)
  | InvokeFunction (scriptHash method checkWitnessHashes : String)
      (args : Option (List Param))
  | InvokeScript (scriptInHex : String) (checkWitnessHashes : String)
  | ListPlugins
  | ListAddress
  | SendFrom
      (assetId : String) (from_ : String) (to_ : String) (amount : Nat) (fee : Nat)
      (changeAddress : String)
  | SendRawTransaction (rawTransactionInHex : String)
  | SendToAddress
      (assetId : String) (to_ : String) (amount : Nat) (fee : Nat) (changeAddress : String)
  | SubmitBlock (blockHex : String)
  | ValidateAddress (address : String)
  | GetProof (stateroot : String) (contractScriptHash : String) (storeKey : String)
  | GetStateHeight
  | GetStateRootByIndex (blockHeight : Nat)
  | GetStateRootByHash (blockHash : String)

/-- The result payload of a call: a hash string for `GetBlockHash`, the invocation result for
`InvokeScript`, and `ρ` for the operation at hand otherwise. -/
def Op.Payload (ρ : Type) : Op → Type
  | Op.GetBlockHash _ => String
  | Op.InvokeScript _ _ => InvokeResult
  | _ => ρ

/-- Runs a call: dispatches to the operation. -/
def Op.run (lib : Lib) (json : Json ρ) (n : RpcClient σ) :
    (op : Op) → World σ → Response (op.Payload ρ) × World σ
  | Op.ClaimGas address, w =>
    (rpc.ClaimGas lib json.Decode n address w :
      Response ρ × World σ)
  | Op.GetAccountState address, w =>
    (rpc.GetAccountState lib json.Decode n address w :
      Response ρ × World σ)
  | Op.GetApplicationLog txId, w =>
    (rpc.GetApplicationLog lib json.Decode n txId w :
      Response ρ × World σ)
  | Op.GetAssetState assetId, w =>
    (rpc.GetAssetState lib json.Decode n assetId w :
      Response ρ × World σ)
  | Op.GetBalance assetId, w =>
    (rpc.GetBalance lib json.Decode n assetId w :
      Response ρ × World σ)
  | Op.GetBestBlockHash, w =>
    (rpc.GetBestBlockHash lib json.Decode n w :
      Response ρ × World σ)
  | Op.GetBlockByHash blockHash, w =>
    (rpc.GetBlockByHash lib json.Decode n blockHash w :
      Response ρ × World σ)
  | Op.GetBlockByIndex index, w =>
    (rpc.GetBlockByIndex lib json.Decode n index w :
      Response ρ × World σ)
  | Op.GetBlockCount, w =>
    (rpc.GetBlockCount lib json.Decode n w :
      Response ρ × World σ)
  | Op.GetBlockHeaderByHash blockHash, w =>
    (rpc.GetBlockHeaderByHash lib json.Decode n blockHash w :
      Response ρ × World σ)
  | Op.GetBlockHeaderByIndex index, w =>
    (rpc.GetBlockHeaderByIndex lib json.DecodeHash json.Decode n index w :
      Response ρ × World σ)
  | Op.GetBlockHash index, w =>
    (rpc.GetBlockHash lib json.DecodeHash n index w :
      Response String × World σ)
  | Op.GetClaimable address, w =>
    (rpc.GetClaimable lib json.Decode n address w :
      Response ρ × World σ)
  | Op.GetConnectionCount, w =>
    (rpc.GetConnectionCount lib json.Decode n w :
      Response ρ × World σ)
  | Op.GetContractState scriptHash, w =>
    (rpc.GetContractState lib json.Decode n scriptHash w :
      Response ρ × World σ)
  | Op.GetNep5Balances address, w =>
    (rpc.GetNep5Balances lib json.Decode n address w :
      Response ρ × World σ)
  | Op.GetNep5Transfers address, w =>
    (rpc.GetNep5Transfers lib json.Decode n address w :
      Response ρ × World σ)
  | Op.GetNewAddress, w =>
    (rpc.GetNewAddress lib json.Decode n w :
      Response ρ × World σ)
  | Op.GetRawMemPool, w =>
    (rpc.GetRawMemPool lib json.Decode n w :
      Response ρ × World σ)
  | Op.GetRawTransaction txid, w =>
    (rpc.GetRawTransaction lib json.Decode n txid w :
      Response ρ × World σ)
  | Op.GetStorage scripthash key, w =>
    (rpc.GetStorage lib json.Decode n scripthash key w :
      Response ρ × World σ)
  | Op.GetTransactionHeight txid, w =>
    (rpc.GetTransactionHeight lib json.Decode n txid w :
      Response ρ × World σ)
  | Op.GetTxOut txid index, w =>
    (rpc.GetTxOut lib json.Decode n txid index w :
      Response ρ × World σ)
  | Op.GetPeers, w =>
    (rpc.GetPeers lib json.Decode n w :
      Response ρ × World σ)
  | Op.GetUnclaimedGas, w =>
    (rpc.GetUnclaimedGas lib json.Decode n w :
      Response ρ × World σ)
  | Op.GetUnclaimed address, w =>
    (rpc.GetUnclaimed lib json.Decode n address w :
      Response ρ × World σ)
  | Op.GetUnspents adddress, w =>
    (rpc.GetUnspents lib json.Decode n adddress w :
      Response ρ × World σ)
  | Op.GetValidators, w =>
    (rpc.GetValidators lib json.Decode n w :
      Response ρ × World σ)
  | Op.GetVersion, w =>
    (rpc.GetVersion lib json.Decode n w :
      Response ρ × World σ)
  | Op.GetWalletHeight, w =>
    (rpc.GetWalletHeight lib json.Decode n w :
      Response ρ × World σ)
  | Op.ImportPrivKey wif, w =>
    (rpc.ImportPrivKey lib json.Decode n wif w :
      Response ρ × World σ)
  | Op.InvokeFunction scriptHash method checkWitnessHashes args, w =>
    (rpc.InvokeFunction lib json.Decode n scriptHash method checkWitnessHashes args w :
      Response ρ × World σ)
  | Op.InvokeScript scriptInHex checkWitnessHashes, w =>
    (rpc.InvokeScript lib json.DecodeInvoke n scriptInHex checkWitnessHashes w :
      Response InvokeResult × World σ)
  | Op.ListPlugins, w =>
    (rpc.ListPlugins lib json.Decode n w :
      Response ρ × World σ)
  | Op.ListAddress, w =>
    (rpc.ListAddress lib json.Decode n w :
      Response ρ × World σ)
  | Op.SendFrom assetId from_ to_ amount fee changeAddress, w =>
    (rpc.SendFrom lib json.Decode n assetId from_ to_ amount fee changeAddress w :
      Response ρ × World σ)
  | Op.SendRawTransaction rawTransactionInHex, w =>
    (rpc.SendRawTransaction lib json.Decode n rawTransactionInHex w :
      Response ρ × World σ)
  | Op.SendToAddress assetId to_ amount fee changeAddress, w =>
    (rpc.SendToAddress lib json.Decode n assetId to_ amount fee changeAddress w :
      Response ρ × World σ)
  | Op.SubmitBlock blockHex, w =>
    (rpc.SubmitBlock lib json.Decode n blockHex w :
      Response ρ × World σ)
  | Op.ValidateAddress address, w =>
    (rpc.ValidateAddress lib json.Decode n address w :
      Response ρ × World σ)
  | Op.GetProof stateroot contractScriptHash storeKey, w =>
    (rpc.GetProof lib json.Decode n stateroot contractScriptHash storeKey w :
      Response ρ × World σ)
  | Op.GetStateHeight, w =>
    (rpc.GetStateHeight lib json.Decode n w :
      Response ρ × World σ)
  | Op.GetStateRootByIndex blockHeight, w =>
    (rpc.GetStateRootByIndex lib json.Decode n blockHeight w :
      Response ρ × World σ)
  | Op.GetStateRootByHash blockHash, w =>
    (rpc.GetStateRootByHash lib json.Decode n blockHash w :
      Response ρ × World σ)

end rpc

/-! ## Packages `helper` and `sc` -/

namespace helper

/-- Modelled from the spec: `helper.HexTobytes` (declared in package `helper`),
"decode a hex string into bytes"; it has no error result, so the bytes `hex.DecodeString`
hands back are returned whether or not the string was well formed. -/
def HexTobytes (hexstring : String) : List Nat :=
  (hex.DecodeString hexstring).1

/-- Modelled from the spec: `helper.UInt160`, a 20-byte address, with its `Bytes()`. -/
structure UInt160 where
  Bytes : List Nat
  deriving DecidableEq, Repr

end helper

namespace sc

/-- Modelled from the spec: the tag of a script-invocation parameter. -/
inductive ContractParameterType
  | Hash160
  | Integer
  | ByteArray
  | String
  deriving DecidableEq, Repr

/-- Modelled from the spec: the raw payload of a script-invocation parameter, the bytes of an
address or an unsigned amount. -/
inductive ParameterValue
  | bytes (b : List Nat)
  | uint64 (n : Nat)
  deriving DecidableEq, Repr

/-- Modelled from the spec: `sc.ContractParameter`, a tagged value. -/
structure ContractParameter where
  Type_ : ContractParameterType
  Value : ParameterValue
  deriving DecidableEq, Repr

/-- Modelled from the spec: the script builder of package `sc` and `helper.BytesToHex`, which
are taken as given. `MakeInvocationScript scriptHash operation args` is
the byte array of a fresh builder after `MakeInvocationScript`. -/
structure ScriptBuilder where
  MakeInvocationScript : List Nat → String → List ContractParameter → List Nat
  BytesToHex : List Nat → String

end sc

/-! ## Package `nep5` -/

namespace nep5

open fmt (Errorf FormatError)

/-- Modelled from the spec: the part of `rpc.IRpcClient` the helper uses, the generic
script-invocation call. -/
structure IRpcClient where
  InvokeScript : String → rpc.InvokeScriptResponse

/-- The helper: `Nep5Helper` of `nep5Helper.go`. -/
structure Nep5Helper where
  EndPoint : String
  Client : IRpcClient

/-- The padding loop `for len(bytes) < 8 { bytes = append(bytes, 0x00) }`. -/
def padTo8 (bytes : List Nat) : List Nat :=
  if bytes.length < 8 then padTo8 (bytes ++ [0x00]) else bytes
termination_by 8 - bytes.length
decreasing_by simp_wf; omega

/-- The operation `Nep5Helper.TotalSupply`. The outer `Option` is `none` when the Go code panics. -/
def TotalSupply (sb : sc.ScriptBuilder) (n : Nep5Helper) (scriptHash : helper.UInt160) :
    Option (Nat × Option FormatError) :=
  let script := sb.MakeInvocationScript scriptHash.Bytes "totalSupply" []
  let response := n.Client.InvokeScript (sb.BytesToHex script)
  let msg := response.ErrorResponse.Error.Message
  if msg.length ≠ 0 then some (0, some (Errorf msg))
  else if response.Result.State = "FAULT" then some (0, some (Errorf "engine faulted"))
  else
    match response.Result.Stack with
    | [] => some (0, some (Errorf "no stack result returned"))
    | stack :: _ =>
      let bytes := padTo8 (helper.HexTobytes stack.Value)
      match binary.LittleEndian.Uint64 bytes with
      | none => none
      | some ts => some (ts, none)

/-- The operation `Nep5Helper.Name`. The returned Go string is given by its bytes. -/
def Name (sb : sc.ScriptBuilder) (n : Nep5Helper) (scriptHash : helper.UInt160) :
    List Nat × Option FormatError :=
  let script := sb.MakeInvocationScript scriptHash.Bytes "name" []
  let response := n.Client.InvokeScript (sb.BytesToHex script)
  let msg := response.ErrorResponse.Error.Message
  if msg.length ≠ 0 then ([], some (Errorf msg))
  else if response.Result.State = "FAULT" then ([], some (Errorf "engine faulted"))
  else
    match response.Result.Stack with
    | [] => ([], some (Errorf "no stack result returned"))
    | stack :: _ => (helper.HexTobytes stack.Value, none)

/-- The operation `Nep5Helper.Symbol`. The returned Go string is given by its bytes. -/
def Symbol (sb : sc.ScriptBuilder) (n : Nep5Helper) (scriptHash : helper.UInt160) :
    List Nat × Option FormatError :=
  let script := sb.MakeInvocationScript scriptHash.Bytes "symbol" []
  let response := n.Client.InvokeScript (sb.BytesToHex script)
  let msg := response.ErrorResponse.Error.Message
  if msg.length ≠ 0 then ([], some (Errorf msg))
  else if response.Result.State = "FAULT" then ([], some (Errorf "engine faulted"))
  else
    match response.Result.Stack with
    | [] => ([], some (Errorf "no stack result returned"))
    | stack :: _ => (helper.HexTobytes stack.Value, none)

/-- The operation `Nep5Helper.Decimals`. -/
def Decimals (sb : sc.ScriptBuilder) (n : Nep5Helper) (scriptHash : helper.UInt160) :
    Nat × Option FormatError :=
  let script := sb.MakeInvocationScript scriptHash.Bytes "decimals" []
  let response := n.Client.InvokeScript (sb.BytesToHex script)
  let msg := response.ErrorResponse.Error.Message
  if msg.length ≠ 0 then (0, some (Errorf msg))
  else if response.Result.State = "FAULT" then (0, some (Errorf "engine faulted"))
  else
    match response.Result.Stack with
    | [] => (0, some (Errorf "no stack result returned"))
    | stack :: _ =>
      match strconv.ParseUint stack.Value 10 8 with
      | (_, some _) => (0, some (Errorf "conversion failed"))
      | (decimals, none) => (decimals % 2 ^ 8, none)

/-- The operation `Nep5Helper.BalanceOf`. The outer `Option` is `none` when the Go code panics. -/
def BalanceOf (sb : sc.ScriptBuilder) (n : Nep5Helper) (scriptHash address : helper.UInt160) :
    Option (Nat × Option FormatError) :=
  let cp : sc.ContractParameter :=
    { Type_ := sc.ContractParameterType.Hash160, Value := sc.ParameterValue.bytes address.Bytes }
  let script := sb.MakeInvocationScript scriptHash.Bytes "balanceOf" [cp]
  let response := n.Client.InvokeScript (sb.BytesToHex script)
  let msg := response.ErrorResponse.Error.Message
  if msg.length ≠ 0 then some (0, some (Errorf msg))
  else if response.Result.State = "FAULT" then some (0, some (Errorf "engine faulted"))
  else
    match response.Result.Stack with
    | [] => some (0, some (Errorf "no stack result returned"))
    | stack :: _ =>
      let bytes := padTo8 (helper.HexTobytes stack.Value)
      match binary.LittleEndian.Uint64 bytes with
      | none => none
      | some balance => some (balance, none)

/-- The operation `Nep5Helper.Transfer`; `amount` is a `uint64`. -/
def Transfer (sb : sc.ScriptBuilder) (n : Nep5Helper) (scriptHash from_ to_ : helper.UInt160)
    (amount : Nat) : Bool × Option FormatError :=
  let cp1 : sc.ContractParameter :=
    { Type_ := sc.ContractParameterType.Hash160, Value := sc.ParameterValue.bytes from_.Bytes }
  let cp2 : sc.ContractParameter :=
    { Type_ := sc.ContractParameterType.Hash160, Value := sc.ParameterValue.bytes to_.Bytes }
  let cp3 : sc.ContractParameter :=
    { Type_ := sc.ContractParameterType.Integer, Value := sc.ParameterValue.uint64 amount }
  let script := sb.MakeInvocationScript scriptHash.Bytes "transfer" [cp1, cp2, cp3]
  let response := n.Client.InvokeScript (sb.BytesToHex script)
  let msg := response.ErrorResponse.Error.Message
  if msg.length ≠ 0 then (false, some (Errorf msg))
  else if response.Result.State = "FAULT" then (false, some (Errorf "engine faulted"))
  else
    match response.Result.Stack with
    | [] => (false, some (Errorf "no stack result returned"))
    | stack :: _ =>
      match strconv.ParseBool stack.Value with
      | (_, some _) => (false, some (Errorf "conversion failed"))
      | (b, none) => (b, none)

end nep5

/-! ## Specification-side readings and sample collaborators -/

namespace nep5

/-- The response the node gives to the invocation script of `operation` with `args` on the
contract `scriptHash`. -/
def responseTo (sb : sc.ScriptBuilder) (n : Nep5Helper) (scriptHash : helper.UInt160)
    (operation : String) (args : List sc.ContractParameter) : rpc.InvokeScriptResponse :=
  n.Client.InvokeScript (sb.BytesToHex (sb.MakeInvocationScript scriptHash.Bytes operation args))

/-- An address argument, tagged as a 20-byte hash. -/
def hash160 (a : helper.UInt160) : sc.ContractParameter :=
  { Type_ := sc.ContractParameterType.Hash160, Value := sc.ParameterValue.bytes a.Bytes }

/-- An amount argument, tagged as an integer. -/
def integer (amount : Nat) : sc.ContractParameter :=
  { Type_ := sc.ContractParameterType.Integer, Value := sc.ParameterValue.uint64 amount }

/-- The value the specification gives a byte sequence: the sum over `i` of `b[i] * 256 ^ i`. -/
def littleEndianValue (b : List Nat) : Nat :=
  ((List.range b.length).map (fun i => b.getD i 0 * 256 ^ i)).sum

/-- The number a string of decimal digits denotes in base 10. -/
def decimalValue (cs : List Char) : Nat :=
  cs.foldl (fun acc c => 10 * acc + (c.toNat - '0'.toNat)) 0

/-- The text `s` is a base-10 unsigned integer literal denoting `n`: it is not empty, all its
characters are digits `0` to `9`, and read in base 10 it is `n`. -/
def IsDecimalLiteral (s : String) (n : Nat) : Prop :=
  s ≠ "" ∧ (∀ c ∈ s.toList, c.isDigit = true) ∧ decimalValue s.toList = n

instance (s : String) (n : Nat) : Decidable (IsDecimalLiteral s n) := by
  unfold IsDecimalLiteral
  infer_instance

/-- The boolean a text denotes as a boolean literal, in the spellings Go documents for
`ParseBool`: `1, t, T, TRUE, true, True` and `0, f, F, FALSE, false, False`. -/
def boolLiteral (s : String) : Option Bool :=
  if s ∈ ["1", "t", "T", "TRUE", "true", "True"] then some true
  else if s ∈ ["0", "f", "F", "FALSE", "false", "False"] then some false
  else none

/-- A sample script builder: the script is the contract hash followed by the bytes of the
operation name and one byte per argument, and its text is one letter per byte. -/
def sampleBuilder : sc.ScriptBuilder where
  MakeInvocationScript := fun scriptHash operation args =>
    scriptHash ++ operation.toList.map Char.toNat ++ args.map (fun _ => 0)
  BytesToHex := fun b => String.mk (b.map (fun _ => 'f'))

/-- A sample helper whose node answers every script with the response `r`. -/
def sampleHelper (r : rpc.InvokeScriptResponse) : Nep5Helper where
  EndPoint := "http://seed1.ngd.network:20332"
  Client := { InvokeScript := fun _ => r }

/-- A sample response: no node error, the given state and stack values. -/
def sampleResponse (state : String) (values : List String) : rpc.InvokeScriptResponse where
  ErrorResponse := { Error := { Code := 0, Message := "" } }
  Result := { State := state, Stack := values.map (fun v => { Type_ := "ByteArray", Value := v }) }

/-- A sample response carrying a node error message. -/
def sampleError (message state : String) (values : List String) : rpc.InvokeScriptResponse where
  ErrorResponse := { Error := { Code := -1, Message := message } }
  Result := { State := state, Stack := values.map (fun v => { Type_ := "ByteArray", Value := v }) }

/-- A sample address. -/
def sampleHash : helper.UInt160 := { Bytes := List.replicate 20 1 }

/-- The three checks every helper operation makes on a response `r` before decoding, in their
order: `result` is what the operation returned and `fail e` is the failure result carrying the
error `e` next to the zero value of the operation. -/
def ChecksInOrder {β : Type} (r : rpc.InvokeScriptResponse) (result : β)
    (fail : fmt.FormatError → β) : Prop :=
  (r.ErrorResponse.Error.Message ≠ "" →
    result = fail (fmt.Errorf r.ErrorResponse.Error.Message)) ∧
  (r.ErrorResponse.Error.Message = "" → r.Result.State = "FAULT" →
    result = fail (fmt.Errorf "engine faulted")) ∧
  (r.ErrorResponse.Error.Message = "" → r.Result.State ≠ "FAULT" → r.Result.Stack = [] →
    result = fail (fmt.Errorf "no stack result returned"))

end nep5

namespace rpc

variable {σ ρ α : Type} [Inhabited ρ]

/-- The zero value of the payload of a call. -/
instance Op.instInhabitedPayload (op : Op) : Inhabited (op.Payload ρ) := by
  cases op
  all_goals first
    | exact (inferInstance : Inhabited String)
    | exact (inferInstance : Inhabited InvokeResult)
    | exact (inferInstance : Inhabited ρ)

/-- The decoder of the response type of a call. -/
def Json.decoderFor (json : Json ρ) : (op : Op) → Decoder (Response (op.Payload ρ))
  | Op.ClaimGas _ => json.Decode
  | Op.GetAccountState _ => json.Decode
  | Op.GetApplicationLog _ => json.Decode
  | Op.GetAssetState _ => json.Decode
  | Op.GetBalance _ => json.Decode
  | Op.GetBestBlockHash => json.Decode
  | Op.GetBlockByHash _ => json.Decode
  | Op.GetBlockByIndex _ => json.Decode
  | Op.GetBlockCount => json.Decode
  | Op.GetBlockHeaderByHash _ => json.Decode
  | Op.GetBlockHeaderByIndex _ => json.Decode
  | Op.GetBlockHash _ => json.DecodeHash
  | Op.GetClaimable _ => json.Decode
  | Op.GetConnectionCount => json.Decode
  | Op.GetContractState _ => json.Decode
  | Op.GetNep5Balances _ => json.Decode
  | Op.GetNep5Transfers _ => json.Decode
  | Op.GetNewAddress => json.Decode
  | Op.GetRawMemPool => json.Decode
  | Op.GetRawTransaction _ => json.Decode
  | Op.GetStorage _ _ => json.Decode
  | Op.GetTransactionHeight _ => json.Decode
  | Op.GetTxOut _ _ => json.Decode
  | Op.GetPeers => json.Decode
  | Op.GetUnclaimedGas => json.Decode
  | Op.GetUnclaimed _ => json.Decode
  | Op.GetUnspents _ => json.Decode
  | Op.GetValidators => json.Decode
  | Op.GetVersion => json.Decode
  | Op.GetWalletHeight => json.Decode
  | Op.ImportPrivKey _ => json.Decode
  | Op.InvokeFunction _ _ _ _ => json.Decode
  | Op.InvokeScript _ _ => json.DecodeInvoke
  | Op.ListPlugins => json.Decode
  | Op.ListAddress => json.Decode
  | Op.SendFrom _ _ _ _ _ _ => json.Decode
  | Op.SendRawTransaction _ => json.Decode
  | Op.SendToAddress _ _ _ _ _ => json.Decode
  | Op.SubmitBlock _ => json.Decode
  | Op.ValidateAddress _ => json.Decode
  | Op.GetProof _ _ _ => json.Decode
  | Op.GetStateHeight => json.Decode
  | Op.GetStateRootByIndex _ => json.Decode
  | Op.GetStateRootByHash _ => json.Decode

/-- The body shared by the operations that issue one request: a zero response is handed to
`makeRequest`, and the error it returns, if any, is stored in the error slot. -/
def callOnce (lib : Lib) (json : Decoder (Response α)) [Inhabited α] (n : RpcClient σ)
    (method : String) (params : List Param) (w : World σ) : Response α × World σ :=
  let r := makeRequest lib json n method params Response.zero w
  match r.err with
  | some err =>
    ({ r.out with ErrorResponse := { Error := { Code := 0, Message := err.Error } } }, r.world)
  | none => (r.out, r.world)

/-- The HTTP request as `makeRequest` hands it to `Do`: the two headers set and `Close` on. -/
def prepared (req : HttpRequest) : HttpRequest :=
  { (req.HeaderAdd "content-type" "application/json").HeaderSet "Connection" "close" with
    Close := true }

/-- Whether a call is one of the operations that issue a single request, which is every
operation but `GetBlockHeaderByIndex`. -/
def Op.single : Op → Bool
  | Op.GetBlockHeaderByIndex _ => false
  | _ => true

/-- The bytes of an ASCII text. -/
def ascii (s : String) : List Nat := s.toList.map Char.toNat

/-- Sample rendering of one parameter as JSON text; an argument slice is abridged. -/
def renderParam : Param → String
  | Param.string s => "\"" ++ s ++ "\""
  | Param.int i => toString i
  | Param.uint32 n => toString n
  | Param.float32 bits => toString bits
  | Param.slice _ => "[...]"

/-- Sample rendering of a request envelope as JSON text. -/
def render (q : RpcRequest) : String :=
  "\x7b\"jsonrpc\":\"" ++ q.JsonRpc ++ "\",\"method\":\"" ++ q.Method ++ "\",\"params\":[" ++
    ",".intercalate (q.Params.map renderParam) ++ "]\x7d"

/-- Sample library behaviour: a request is marshalled to the bytes of its rendering, and the
HTTP request is built for every URL, with an empty header. -/
def sampleLib : Lib where
  Marshal := fun q => ascii (render q)
  NewRequest := fun verb url body =>
    Except.ok { Method := verb, URL := url, Body := body, Header := [], Close := false }

/-- The body `{}`. -/
def emptyObject : List Nat := ascii "\x7b\x7d"

/-- A body whose `result` fits the response type while its `id` does not. -/
def mistypedId : List Nat := ascii "\x7b\"result\":5,\"id\":\"x\"\x7d"

/-- Sample decoders. For a response with an integer payload, the body `mistypedId` has its
result stored before the type mismatch of the id is reported, as `encoding/json` does; any
other body leaves the target as it is. The hash decoder stores the hash `0x1f`. -/
def sampleJson : Json Int where
  Decode := fun body out =>
    if body = mistypedId then
      ({ out with Result := 5 },
        some { Error := "json: cannot unmarshal string into Go struct field .id of type int" })
    else (out, none)
  DecodeHash := fun _ out => ({ out with Result := "0x1f" }, none)
  DecodeInvoke := fun _ out => (out, none)

/-- A sample node whose state counts the exchanges served: the first exchange fails with a
transport error and every later one is answered with the body `{}`. -/
def flakyNode : IHttpClient Nat where
  Do := fun _ served =>
    if served = 0 then (Except.error { Error := "read tcp: connection reset by peer" }, 1)
    else (Except.ok emptyObject, served + 1)

/-- A sample node that answers every exchange with the body `mistypedId`. -/
def mistypingNode : IHttpClient Nat where
  Do := fun _ served => (Except.ok mistypedId, served + 1)

/-- A sample client on an endpoint. -/
def sampleClient (node : IHttpClient Nat) : RpcClient Nat where
  Endpoint := "http://seed1.ngd.network:20332"
  httpClient := node

/-- A sample node whose state counts the exchanges served: the second exchange fails with a
transport error and every other one is answered with the body `{}`. -/
def lateFailingNode : IHttpClient Nat where
  Do := fun _ served =>
    if served = 1 then (Except.error { Error := "read tcp: connection reset by peer" }, 2)
    else (Except.ok emptyObject, served + 1)

/-- A sample node whose state is the list of the HTTP requests it was handed, oldest first; it
answers every exchange with the body `{}`. -/
def recordingNode : IHttpClient (List HttpRequest) where
  Do := fun req received => (Except.ok emptyObject, received ++ [req])

/-- A sample client on the recording node. -/
def recordingClient : RpcClient (List HttpRequest) where
  Endpoint := "http://seed1.ngd.network:20332"
  httpClient := recordingNode

/-- The state before any call to the recording node. -/
def freshRecording : World (List HttpRequest) where
  net := []
  requests := []
  exchanges := []

/-- The state before any call. -/
def freshWorld : World Nat where
  net := 0
  requests := []
  exchanges := []

end rpc

namespace rpc

/-- The request envelope a call hands to `makeRequest`: the method name and the positional
parameters of the operation. For `GetBlockHeaderByIndex`, which issues two requests, it is the
first one; the second, `getblockheader`, is built from the hash the first one returned. -/
def Op.request : Op → RpcRequest
  | Op.ClaimGas address => NewRequest "claimgas" [Param.string address]
  | Op.GetAccountState address => NewRequest "getaccountstate" [Param.string address]
  | Op.GetApplicationLog txId => NewRequest "getapplicationlog" [Param.string txId]
  | Op.GetAssetState assetId => NewRequest "getassetstate" [Param.string assetId]
  | Op.GetBalance assetId => NewRequest "getbalance" [Param.string assetId]
  | Op.GetBestBlockHash => NewRequest "getbestblockhash" []
  | Op.GetBlockByHash blockHash => NewRequest "getblock" [Param.string blockHash, Param.int 1]
  | Op.GetBlockByIndex index => NewRequest "getblock" [Param.uint32 index, Param.int 1]
  | Op.GetBlockCount => NewRequest "getblockcount" []
  | Op.GetBlockHeaderByHash blockHash =>
    NewRequest "getblockheader"
      [Param.string blockHash, Param.int 1]
  | Op.GetBlockHeaderByIndex index => NewRequest "getblockhash" [Param.uint32 index]
  | Op.GetBlockHash index => NewRequest "getblockhash" [Param.uint32 index]
  | Op.GetClaimable address => NewRequest "getclaimable" [Param.string address]
  | Op.GetConnectionCount => NewRequest "getconnectioncount" []
  | Op.GetContractState scriptHash => NewRequest "getcontractstate" [Param.string scriptHash]
  | Op.GetNep5Balances address => NewRequest "getnep5balances" [Param.string address]
  | Op.GetNep5Transfers address => NewRequest "getnep5balances" [Param.string address]
  | Op.GetNewAddress => NewRequest "getnewaddress" []
  | Op.GetRawMemPool => NewRequest "getrawmempool" []
  | Op.GetRawTransaction txid => NewRequest "getrawtransaction" [Param.string txid, Param.int 1]
  | Op.GetStorage scripthash key =>
    NewRequest "getstorage"
      [Param.string scripthash, Param.string key]
  | Op.GetTransactionHeight txid => NewRequest "gettransactionheight" [Param.string txid]
  | Op.GetTxOut txid index => NewRequest "gettxout" [Param.string txid, Param.int index]
  | Op.GetPeers => NewRequest "getpeers" []
  | Op.GetUnclaimedGas => NewRequest "getunclaimedgas" []
  | Op.GetUnclaimed address => NewRequest "getunclaimed" [Param.string address]
  | Op.GetUnspents adddress => NewRequest "getunspents" [Param.string adddress]
  | Op.GetValidators => NewRequest "getvalidators" []
  | Op.GetVersion => NewRequest "getversion" []
  | Op.GetWalletHeight => NewRequest "getwalletheight" []
  | Op.ImportPrivKey wif => NewRequest "importprivkey" [Param.string wif]
  | Op.InvokeFunction scriptHash method checkWitnessHashes args =>
    NewRequest "invokefunction"
      (match args with
      | some args =>
        [Param.string scriptHash, Param.string method, Param.slice args,
          Param.string checkWitnessHashes]
      | none =>
        [Param.string scriptHash, Param.string method, Param.string checkWitnessHashes])
  | Op.InvokeScript scriptInHex checkWitnessHashes =>
    NewRequest "invokescript"
      [Param.string scriptInHex, Param.string checkWitnessHashes]
  | Op.ListPlugins => NewRequest "listplugins" []
  | Op.ListAddress => NewRequest "listaddress" []
  | Op.SendFrom assetId from_ to_ amount fee changeAddress =>
    NewRequest "sendfrom"
      [Param.string assetId, Param.string from_, Param.string to_, Param.uint32 amount,
        Param.float32 fee, Param.string changeAddress]
  | Op.SendRawTransaction rawTransactionInHex =>
    NewRequest "sendrawtransaction"
      [Param.string rawTransactionInHex, Param.int 1]
  | Op.SendToAddress assetId to_ amount fee changeAddress =>
    NewRequest "sendtoaddress"
      [Param.string assetId, Param.string to_, Param.uint32 amount, Param.float32 fee,
        Param.string changeAddress]
  | Op.SubmitBlock blockHex => NewRequest "submitblock" [Param.string blockHex]
  | Op.ValidateAddress address => NewRequest "validateaddress" [Param.string address]
  | Op.GetProof stateroot contractScriptHash storeKey =>
    NewRequest "getproof"
      [Param.string stateroot, Param.string contractScriptHash, Param.string storeKey]
  | Op.GetStateHeight => NewRequest "getstateheight" []
  | Op.GetStateRootByIndex blockHeight => NewRequest "getstateroot" [Param.uint32 blockHeight]
  | Op.GetStateRootByHash blockHash => NewRequest "getstateroot" [Param.string blockHash]

/-- How one request `q`, issued in state `w` with the decoder `json`, reports its failure in
the object `result` the operation returns. If building the HTTP request fails, or the HTTP
exchange fails, with an error `e`, the object is the zero value with code 0 and the text of
`e` in its error slot. If decoding the answered body fails with `e`, the object is what the
decoder made of the zero value, with code 0 and the text of `e` in its error slot. -/
def FailureReported {σ α : Type} [Inhabited α] (lib : Lib) (json : Decoder (Response α))
    (n : RpcClient σ) (q : RpcRequest) (w : World σ) (result : Response α) : Prop :=
  (∀ e, lib.NewRequest "POST" n.Endpoint (lib.Marshal q) = Except.error e →
    result =
      { ErrorResponse := { Error := { Code := 0, Message := e.Error } }, Result := default }) ∧
  (∀ req e, lib.NewRequest "POST" n.Endpoint (lib.Marshal q) = Except.ok req →
    (n.httpClient.Do (prepared req) w.net).1 = Except.error e →
    result =
      { ErrorResponse := { Error := { Code := 0, Message := e.Error } }, Result := default }) ∧
  (∀ req body e, lib.NewRequest "POST" n.Endpoint (lib.Marshal q) = Except.ok req →
    (n.httpClient.Do (prepared req) w.net).1 = Except.ok body →
    (json body Response.zero).2 = some e →
    result =
      { (json body Response.zero).1 with
        ErrorResponse := { Error := { Code := 0, Message := e.Error } } })

/-- The Go name of the operation a call invokes. -/
def Op.name : Op → String
  | Op.ClaimGas _ => "ClaimGas"
  | Op.GetAccountState _ => "GetAccountState"
  | Op.GetApplicationLog _ => "GetApplicationLog"
  | Op.GetAssetState _ => "GetAssetState"
  | Op.GetBalance _ => "GetBalance"
  | Op.GetBestBlockHash => "GetBestBlockHash"
  | Op.GetBlockByHash _ => "GetBlockByHash"
  | Op.GetBlockByIndex _ => "GetBlockByIndex"
  | Op.GetBlockCount => "GetBlockCount"
  | Op.GetBlockHeaderByHash _ => "GetBlockHeaderByHash"
  | Op.GetBlockHeaderByIndex _ => "GetBlockHeaderByIndex"
  | Op.GetBlockHash _ => "GetBlockHash"
  | Op.GetClaimable _ => "GetClaimable"
  | Op.GetConnectionCount => "GetConnectionCount"
  | Op.GetContractState _ => "GetContractState"
  | Op.GetNep5Balances _ => "GetNep5Balances"
  | Op.GetNep5Transfers _ => "GetNep5Transfers"
  | Op.GetNewAddress => "GetNewAddress"
  | Op.GetRawMemPool => "GetRawMemPool"
  | Op.GetRawTransaction _ => "GetRawTransaction"
  | Op.GetStorage _ _ => "GetStorage"
  | Op.GetTransactionHeight _ => "GetTransactionHeight"
  | Op.GetTxOut _ _ => "GetTxOut"
  | Op.GetPeers => "GetPeers"
  | Op.GetUnclaimedGas => "GetUnclaimedGas"
  | Op.GetUnclaimed _ => "GetUnclaimed"
  | Op.GetUnspents _ => "GetUnspents"
  | Op.GetValidators => "GetValidators"
  | Op.GetVersion => "GetVersion"
  | Op.GetWalletHeight => "GetWalletHeight"
  | Op.ImportPrivKey _ => "ImportPrivKey"
  | Op.InvokeFunction _ _ _ _ => "InvokeFunction"
  | Op.InvokeScript _ _ => "InvokeScript"
  | Op.ListPlugins => "ListPlugins"
  | Op.ListAddress => "ListAddress"
  | Op.SendFrom _ _ _ _ _ _ => "SendFrom"
  | Op.SendRawTransaction _ => "SendRawTransaction"
  | Op.SendToAddress _ _ _ _ _ => "SendToAddress"
  | Op.SubmitBlock _ => "SubmitBlock"
  | Op.ValidateAddress _ => "ValidateAddress"
  | Op.GetProof _ _ _ => "GetProof"
  | Op.GetStateHeight => "GetStateHeight"
  | Op.GetStateRootByIndex _ => "GetStateRootByIndex"
  | Op.GetStateRootByHash _ => "GetStateRootByHash"

/-- The method name the naming rule gives an operation: the name of the operation without a
trailing `ByHash` or `ByIndex`, in lower case. -/
def ruleMethod (name : String) : String :=
  let cs := name.toList
  let base :=
    if "ByHash".toList.isSuffixOf cs then cs.take (cs.length - 6)
    else if "ByIndex".toList.isSuffixOf cs then cs.take (cs.length - 7)
    else cs
  String.mk (base.map Char.toLower)

end rpc

/-! ## Auxiliary facts -/

theorem String.length_ne_zero_iff (s : String) : s.length ≠ 0 ↔ s ≠ "" := by
  constructor
  · rintro h rfl
    exact h rfl
  · intro h h0
    exact h (String.ext (List.length_eq_zero.mp h0))

theorem Nat.or_shiftLeft_of_lt (acc y k : Nat) (h : acc < 2 ^ k) :
    acc ||| y <<< k = acc + y * 2 ^ k := by
  rw [Nat.shiftLeft_eq, Nat.or_comm, Nat.add_comm, Nat.mul_comm]
  exact (Nat.mul_add_lt_is_or h y).symm

namespace hex

theorem fromHexChar_lt {c : Char} {a : Nat} (h : fromHexChar c = some a) : a < 16 := by
  unfold fromHexChar at h
  simp only [Char.reduceToNat] at h
  split_ifs at h with h1 h2 h3 <;> simp at h <;> omega

theorem Decode_lt (cs : List Char) : ∀ x ∈ (Decode cs).1, x < 256 := by
  induction cs using Decode.induct with
  | case1 p q rest a b ha hb ih =>
    intro x hx
    simp only [Decode, ha, hb, List.mem_cons] at hx
    rcases hx with rfl | hx
    · have h1 := fromHexChar_lt ha
      have h2 := fromHexChar_lt hb
      rw [Nat.or_comm, Nat.or_shiftLeft_of_lt b a 4 (by norm_num; omega)]
      omega
    · exact ih x hx
  | case2 p q rest h =>
    intro x hx
    unfold Decode at hx
    split at hx
    · rename_i a b ha hb
      exact absurd hb (h a b ha)
    · simp at hx
  | case3 c => intro x hx; simp [Decode] at hx
  | case4 => intro x hx; simp [Decode] at hx

end hex

namespace nep5

theorem padTo8_eq (bytes : List Nat) :
    padTo8 bytes = bytes ++ List.replicate (8 - bytes.length) 0 := by
  generalize h : 8 - bytes.length = k
  induction k generalizing bytes with
  | zero =>
    rw [padTo8, if_neg (by omega)]
    simp
  | succ k ih =>
    rw [padTo8, if_pos (by omega), ih (bytes ++ [0]) (by simp; omega)]
    simp [List.replicate_succ]

end nep5

namespace binary

theorem LittleEndian.Uint64_eq_sum (b0 b1 b2 b3 b4 b5 b6 b7 : Nat) (rest : List Nat)
    (h0 : b0 < 256) (h1 : b1 < 256) (h2 : b2 < 256) (h3 : b3 < 256) (h4 : b4 < 256)
    (h5 : b5 < 256) (h6 : b6 < 256) :
    LittleEndian.Uint64 (b0 :: b1 :: b2 :: b3 :: b4 :: b5 :: b6 :: b7 :: rest) =
      some (b0 + b1 * 256 + b2 * 256 ^ 2 + b3 * 256 ^ 3 + b4 * 256 ^ 4 + b5 * 256 ^ 5 +
        b6 * 256 ^ 6 + b7 * 256 ^ 7) := by
  simp only [LittleEndian.Uint64]
  rw [Nat.or_shiftLeft_of_lt _ b1 8 (by norm_num; omega),
    Nat.or_shiftLeft_of_lt _ b2 16 (by norm_num; omega),
    Nat.or_shiftLeft_of_lt _ b3 24 (by norm_num; omega),
    Nat.or_shiftLeft_of_lt _ b4 32 (by norm_num; omega),
    Nat.or_shiftLeft_of_lt _ b5 40 (by norm_num; omega),
    Nat.or_shiftLeft_of_lt _ b6 48 (by norm_num; omega),
    Nat.or_shiftLeft_of_lt _ b7 56 (by norm_num; omega)]
  norm_num

end binary

namespace nep5

theorem Uint64_padded (b : List Nat) (hlen : b.length ≤ 8) (hb : ∀ x ∈ b, x < 256) :
    binary.LittleEndian.Uint64 (b ++ List.replicate (8 - b.length) 0) =
      some (littleEndianValue b) ∧ littleEndianValue b < 2 ^ 64 := by
  rcases b with _ | ⟨b0, _ | ⟨b1, _ | ⟨b2, _ | ⟨b3, _ | ⟨b4, _ | ⟨b5, _ | ⟨b6, _ |
    ⟨b7, _ | ⟨b8, r⟩⟩⟩⟩⟩⟩⟩⟩⟩
  all_goals first
    | (simp only [List.length_cons] at hlen; omega)
    | (simp only [List.mem_cons, List.mem_singleton, forall_eq_or_imp, forall_eq,
        List.not_mem_nil, false_imp_iff, implies_true, and_true, IsEmpty.forall_iff] at hb
       simp only [List.length_cons, List.length_nil, List.replicate, List.cons_append,
        List.nil_append, Nat.reduceAdd, Nat.reduceSub]
       rw [binary.LittleEndian.Uint64_eq_sum _ _ _ _ _ _ _ _ _ (by omega) (by omega) (by omega)
        (by omega) (by omega) (by omega) (by omega)]
       constructor
       · simp [littleEndianValue, List.range_succ]
         try omega
       · simp [littleEndianValue, List.range_succ]
         try omega)

end nep5

namespace strconv

theorem digitOf_digit {x : Nat} (h : 48 ≤ x ∧ x ≤ 57) : digitOf x = some (x - 48) := by
  simp [digitOf, h]

theorem digitOf_not_digit {x d : Nat} (h : ¬ (48 ≤ x ∧ x ≤ 57)) (hd : digitOf x = some d) :
    10 ≤ d := by
  unfold digitOf at hd
  simp only [Char.reduceToNat] at hd
  rw [if_neg h] at hd
  split_ifs at hd
  simp at hd
  omega

end strconv

namespace nep5

theorem isDigit_iff (c : Char) : c.isDigit = true ↔ 48 ≤ c.toNat ∧ c.toNat ≤ 57 := by
  simp [Char.isDigit, Char.toNat, UInt32.le_def, BitVec.le_def]
  rfl

theorem le_foldl_decimal (cs : List Char) (n : Nat) :
    n ≤ cs.foldl (fun acc c => 10 * acc + (c.toNat - '0'.toNat)) n := by
  induction cs generalizing n with
  | nil => simp
  | cons c cs ih =>
    simp only [List.foldl_cons]
    exact le_trans (by omega) (ih _)

theorem parseUintLoop_ok (cs : List Char) (n : Nat) (hd : ∀ c ∈ cs, c.isDigit = true)
    (hv : cs.foldl (fun acc c => 10 * acc + (c.toNat - '0'.toNat)) n ≤ 255) :
    strconv.parseUintLoop 10 ((2 ^ 64 - 1) / 10 + 1) (2 ^ 8 - 1) cs n =
      (cs.foldl (fun acc c => 10 * acc + (c.toNat - '0'.toNat)) n, none) := by
  induction cs generalizing n with
  | nil => simp [strconv.parseUintLoop]
  | cons c cs ih =>
    have hc := (isDigit_iff c).mp (hd c (List.mem_cons_self _ _))
    simp only [List.foldl_cons] at hv ⊢
    have hmono := le_foldl_decimal cs (10 * n + (c.toNat - '0'.toNat))
    simp only [Char.reduceToNat] at hv hmono ⊢
    rw [strconv.parseUintLoop, strconv.digitOf_digit hc]
    have h1 : ¬ (c.toNat - 48 ≥ 10) := by omega
    have h2 : ¬ (n ≥ (2 ^ 64 - 1) / 10 + 1) := by norm_num; omega
    have h3 : n * 10 % 2 ^ 64 = 10 * n := by norm_num; omega
    have h4 : (10 * n + (c.toNat - 48)) % 2 ^ 64 = 10 * n + (c.toNat - 48) := by
      norm_num; omega
    simp only [h1, h2, h3, h4, if_false]
    rw [if_neg (by norm_num; omega)]
    exact ih _ (fun c hc => hd c (List.mem_cons_of_mem _ hc)) hv

theorem parseUintLoop_err (cs : List Char) (n : Nat) (hn : n ≤ 255)
    (h : ¬ ((∀ c ∈ cs, c.isDigit = true) ∧
      cs.foldl (fun acc c => 10 * acc + (c.toNat - '0'.toNat)) n ≤ 255)) :
    ∃ v e, strconv.parseUintLoop 10 ((2 ^ 64 - 1) / 10 + 1) (2 ^ 8 - 1) cs n = (v, some e) := by
  induction cs generalizing n with
  | nil => simp at h; omega
  | cons c cs ih =>
    rw [strconv.parseUintLoop]
    by_cases hc : c.isDigit = true
    · have hc2 := (isDigit_iff c).mp hc
      rw [strconv.digitOf_digit hc2]
      have h1 : ¬ (c.toNat - 48 ≥ 10) := by omega
      have h2 : ¬ (n ≥ (2 ^ 64 - 1) / 10 + 1) := by norm_num; omega
      have h3 : n * 10 % 2 ^ 64 = 10 * n := by norm_num; omega
      have h4 : (10 * n + (c.toNat - 48)) % 2 ^ 64 = 10 * n + (c.toNat - 48) := by
        norm_num; omega
      simp only [h1, h2, h3, h4, if_false]
      by_cases hr : 10 * n + (c.toNat - 48) < 10 * n ∨ 10 * n + (c.toNat - 48) > 2 ^ 8 - 1
      · rw [if_pos hr]; exact ⟨_, _, rfl⟩
      · rw [if_neg hr]
        refine ih _ (by norm_num at hr; omega) ?_
        rintro ⟨hd, hv⟩
        refine h ⟨?_, ?_⟩
        · intro x hx
          rcases List.mem_cons.mp hx with rfl | hx
          · exact hc
          · exact hd x hx
        · simpa using hv
    · have hc2 : ¬ (48 ≤ c.toNat ∧ c.toNat ≤ 57) := fun hh => hc ((isDigit_iff c).mpr hh)
      cases hdig : strconv.digitOf c.toNat with
      | none => exact ⟨_, _, rfl⟩
      | some d =>
        have := strconv.digitOf_not_digit hc2 hdig
        simp only [ge_iff_le, this, if_true]
        exact ⟨_, _, rfl⟩

end nep5

/-! ## The token helper -/

namespace nep5

/-- C1: for a response with an empty error message, a state other than `FAULT` and a stack
whose first value hex-decodes to a byte sequence `b` of at most 8 bytes, `TotalSupply` and
`BalanceOf` both succeed and return the sum over `i` of `b[i] * 256 ^ i`, which is the
little-endian 64-bit reading of `b` padded with zero bytes to length 8. -/
theorem totalSupply_balanceOf_littleEndian (r : rpc.InvokeScriptResponse)
    (hmsg : r.ErrorResponse.Error.Message = "") (hstate : r.Result.State ≠ "FAULT")
    (stack : rpc.InvokeStack) (rest : List rpc.InvokeStack)
    (hstack : r.Result.Stack = stack :: rest)
    (b : List Nat) (hb : helper.HexTobytes stack.Value = b) (hlen : b.length ≤ 8) :
    (∀ (sb : sc.ScriptBuilder) (n : Nep5Helper) (scriptHash : helper.UInt160),
      responseTo sb n scriptHash "totalSupply" [] = r →
        TotalSupply sb n scriptHash = some (littleEndianValue b, none)) ∧
    (∀ (sb : sc.ScriptBuilder) (n : Nep5Helper) (scriptHash address : helper.UInt160),
      responseTo sb n scriptHash "balanceOf" [hash160 address] = r →
        BalanceOf sb n scriptHash address = some (littleEndianValue b, none)) ∧
    binary.LittleEndian.Uint64 (b ++ List.replicate (8 - b.length) 0) =
      some (littleEndianValue b) ∧
    littleEndianValue b < 2 ^ 64 := by
  have hbytes : ∀ x ∈ b, x < 256 := by
    rw [← hb]
    exact hex.Decode_lt _
  have hu := Uint64_padded b hlen hbytes
  refine ⟨?_, ?_, hu.1, hu.2⟩
  · intro sb n scriptHash hr
    simp only [responseTo] at hr
    simp [TotalSupply, hr, hmsg, hstate, hstack, hb, padTo8_eq, hu.1]
  · intro sb n scriptHash address hr
    simp only [responseTo, hash160] at hr
    simp [BalanceOf, hr, hmsg, hstate, hstack, hb, padTo8_eq, hu.1]

/-- Witness of C1: hex `01` gives 1, hex `0002` gives 512 and hex `e803` gives 1000. -/
theorem totalSupply_balanceOf_littleEndian_witness :
    TotalSupply sampleBuilder (sampleHelper (sampleResponse "HALT" ["01"])) sampleHash =
      some (1, none) ∧
    TotalSupply sampleBuilder (sampleHelper (sampleResponse "HALT" ["0002"])) sampleHash =
      some (512, none) ∧
    BalanceOf sampleBuilder (sampleHelper (sampleResponse "HALT" ["e803"])) sampleHash
      sampleHash = some (1000, none) :=
  ⟨(totalSupply_balanceOf_littleEndian (sampleResponse "HALT" ["01"]) rfl (by decide)
      { Type_ := "ByteArray", Value := "01" } [] rfl [1] (by decide) (by decide)).1
      sampleBuilder _ sampleHash rfl,
    (totalSupply_balanceOf_littleEndian (sampleResponse "HALT" ["0002"]) rfl (by decide)
      { Type_ := "ByteArray", Value := "0002" } [] rfl [0, 2] (by decide) (by decide)).1
      sampleBuilder _ sampleHash rfl,
    (totalSupply_balanceOf_littleEndian (sampleResponse "HALT" ["e803"]) rfl (by decide)
      { Type_ := "ByteArray", Value := "e803" } [] rfl [0xe8, 0x03] (by decide) (by decide)).2.1
      sampleBuilder _ sampleHash sampleHash rfl⟩

end nep5

namespace nep5

/-- C2: when the execution state of the response is `FAULT`, each of the six operations returns
a non-nil error together with the zero value of its result type, whatever the stack holds. -/
theorem fault_state_fails (r : rpc.InvokeScriptResponse) (hfault : r.Result.State = "FAULT")
    (sb : sc.ScriptBuilder) (n : Nep5Helper) (scriptHash address from_ to_ : helper.UInt160)
    (amount : Nat) :
    (responseTo sb n scriptHash "totalSupply" [] = r →
      ∃ e, TotalSupply sb n scriptHash = some (0, some e)) ∧
    (responseTo sb n scriptHash "name" [] = r → ∃ e, Name sb n scriptHash = ([], some e)) ∧
    (responseTo sb n scriptHash "symbol" [] = r →
      ∃ e, Symbol sb n scriptHash = ([], some e)) ∧
    (responseTo sb n scriptHash "decimals" [] = r →
      ∃ e, Decimals sb n scriptHash = (0, some e)) ∧
    (responseTo sb n scriptHash "balanceOf" [hash160 address] = r →
      ∃ e, BalanceOf sb n scriptHash address = some (0, some e)) ∧
    (responseTo sb n scriptHash "transfer" [hash160 from_, hash160 to_, integer amount] = r →
      ∃ e, Transfer sb n scriptHash from_ to_ amount = (false, some e)) := by
  simp only [responseTo, hash160, integer]
  refine ⟨?_, ?_, ?_, ?_, ?_, ?_⟩ <;> intro hr
  · by_cases hm : r.ErrorResponse.Error.Message = "" <;>
      simp [TotalSupply, hr, hm, hfault, String.length_ne_zero_iff]
  · by_cases hm : r.ErrorResponse.Error.Message = "" <;>
      simp [Name, hr, hm, hfault, String.length_ne_zero_iff]
  · by_cases hm : r.ErrorResponse.Error.Message = "" <;>
      simp [Symbol, hr, hm, hfault, String.length_ne_zero_iff]
  · by_cases hm : r.ErrorResponse.Error.Message = "" <;>
      simp [Decimals, hr, hm, hfault, String.length_ne_zero_iff]
  · by_cases hm : r.ErrorResponse.Error.Message = "" <;>
      simp [BalanceOf, hr, hm, hfault, String.length_ne_zero_iff]
  · by_cases hm : r.ErrorResponse.Error.Message = "" <;>
      simp [Transfer, hr, hm, hfault, String.length_ne_zero_iff]

/-- Witness of C2: a faulted response whose stack holds the valid values `e803` and `true`. -/
theorem fault_state_fails_witness :
    (sampleResponse "FAULT" ["e803"]).Result.State = "FAULT" ∧
    (∃ e, TotalSupply sampleBuilder (sampleHelper (sampleResponse "FAULT" ["e803"]))
      sampleHash = some (0, some e)) ∧
    (∃ e, Transfer sampleBuilder (sampleHelper (sampleResponse "FAULT" ["e803"]))
      sampleHash sampleHash sampleHash 100 = (false, some e)) :=
  have h := fault_state_fails (sampleResponse "FAULT" ["e803"]) rfl sampleBuilder
    (sampleHelper (sampleResponse "FAULT" ["e803"])) sampleHash sampleHash sampleHash sampleHash
    100
  ⟨rfl, h.1 rfl, h.2.2.2.2.2 rfl⟩

/-- C3: when the result stack of the response is empty, each of the six operations returns a
non-nil error, so the outcome is never a nil error next to `0`, the empty string or `false`. -/
theorem empty_stack_fails (r : rpc.InvokeScriptResponse) (hempty : r.Result.Stack = [])
    (sb : sc.ScriptBuilder) (n : Nep5Helper) (scriptHash address from_ to_ : helper.UInt160)
    (amount : Nat) :
    (responseTo sb n scriptHash "totalSupply" [] = r →
      ∃ e, TotalSupply sb n scriptHash = some (0, some e)) ∧
    (responseTo sb n scriptHash "name" [] = r → ∃ e, Name sb n scriptHash = ([], some e)) ∧
    (responseTo sb n scriptHash "symbol" [] = r →
      ∃ e, Symbol sb n scriptHash = ([], some e)) ∧
    (responseTo sb n scriptHash "decimals" [] = r →
      ∃ e, Decimals sb n scriptHash = (0, some e)) ∧
    (responseTo sb n scriptHash "balanceOf" [hash160 address] = r →
      ∃ e, BalanceOf sb n scriptHash address = some (0, some e)) ∧
    (responseTo sb n scriptHash "transfer" [hash160 from_, hash160 to_, integer amount] = r →
      ∃ e, Transfer sb n scriptHash from_ to_ amount = (false, some e)) := by
  simp only [responseTo, hash160, integer]
  refine ⟨?_, ?_, ?_, ?_, ?_, ?_⟩ <;> intro hr
  · by_cases hm : r.ErrorResponse.Error.Message = "" <;>
      by_cases hs : r.Result.State = "FAULT" <;>
      simp [TotalSupply, hr, hm, hs, hempty, String.length_ne_zero_iff]
  · by_cases hm : r.ErrorResponse.Error.Message = "" <;>
      by_cases hs : r.Result.State = "FAULT" <;>
      simp [Name, hr, hm, hs, hempty, String.length_ne_zero_iff]
  · by_cases hm : r.ErrorResponse.Error.Message = "" <;>
      by_cases hs : r.Result.State = "FAULT" <;>
      simp [Symbol, hr, hm, hs, hempty, String.length_ne_zero_iff]
  · by_cases hm : r.ErrorResponse.Error.Message = "" <;>
      by_cases hs : r.Result.State = "FAULT" <;>
      simp [Decimals, hr, hm, hs, hempty, String.length_ne_zero_iff]
  · by_cases hm : r.ErrorResponse.Error.Message = "" <;>
      by_cases hs : r.Result.State = "FAULT" <;>
      simp [BalanceOf, hr, hm, hs, hempty, String.length_ne_zero_iff]
  · by_cases hm : r.ErrorResponse.Error.Message = "" <;>
      by_cases hs : r.Result.State = "FAULT" <;>
      simp [Transfer, hr, hm, hs, hempty, String.length_ne_zero_iff]

/-- Witness of C3: a halted response with an empty stack. -/
theorem empty_stack_fails_witness :
    (sampleResponse "HALT" []).Result.Stack = [] ∧
    (∃ e, Decimals sampleBuilder (sampleHelper (sampleResponse "HALT" [])) sampleHash =
      (0, some e)) ∧
    (∃ e, Name sampleBuilder (sampleHelper (sampleResponse "HALT" [])) sampleHash =
      ([], some e)) :=
  have h := empty_stack_fails (sampleResponse "HALT" []) rfl sampleBuilder
    (sampleHelper (sampleResponse "HALT" [])) sampleHash sampleHash sampleHash sampleHash 100
  ⟨rfl, h.2.2.2.1 rfl, h.2.1 rfl⟩

/-- C4: each of the six operations checks the node error message, then the fault state, then
the empty stack, in that order and before any decoding: a non-empty message yields the error
built from it even when the state is `FAULT` and the stack is empty, otherwise a `FAULT` state
yields `engine faulted` even when the stack is empty, otherwise an empty stack yields
`no stack result returned`. In the first two cases the outcome is fixed without the stack, in the
third there is no first element, so the first stack element is read only when none holds. -/
theorem checks_in_order (r : rpc.InvokeScriptResponse)
    (sb : sc.ScriptBuilder) (n : Nep5Helper) (scriptHash address from_ to_ : helper.UInt160)
    (amount : Nat) :
    (responseTo sb n scriptHash "totalSupply" [] = r →
      ChecksInOrder r (TotalSupply sb n scriptHash) (fun e => some (0, some e))) ∧
    (responseTo sb n scriptHash "name" [] = r →
      ChecksInOrder r (Name sb n scriptHash) (fun e => ([], some e))) ∧
    (responseTo sb n scriptHash "symbol" [] = r →
      ChecksInOrder r (Symbol sb n scriptHash) (fun e => ([], some e))) ∧
    (responseTo sb n scriptHash "decimals" [] = r →
      ChecksInOrder r (Decimals sb n scriptHash) (fun e => (0, some e))) ∧
    (responseTo sb n scriptHash "balanceOf" [hash160 address] = r →
      ChecksInOrder r (BalanceOf sb n scriptHash address) (fun e => some (0, some e))) ∧
    (responseTo sb n scriptHash "transfer" [hash160 from_, hash160 to_, integer amount] = r →
      ChecksInOrder r (Transfer sb n scriptHash from_ to_ amount) (fun e => (false, some e))) := by
  simp only [responseTo, hash160, integer, ChecksInOrder]
  refine ⟨?_, ?_, ?_, ?_, ?_, ?_⟩ <;> intro hr <;>
    refine ⟨fun hm => ?_, fun hm hs => ?_, fun hm hs he => ?_⟩
  · simp [TotalSupply, hr, hm, String.length_ne_zero_iff]
  · simp [TotalSupply, hr, hm, hs, String.length_ne_zero_iff]
  · simp [TotalSupply, hr, hm, hs, he, String.length_ne_zero_iff]
  · simp [Name, hr, hm, String.length_ne_zero_iff]
  · simp [Name, hr, hm, hs, String.length_ne_zero_iff]
  · simp [Name, hr, hm, hs, he, String.length_ne_zero_iff]
  · simp [Symbol, hr, hm, String.length_ne_zero_iff]
  · simp [Symbol, hr, hm, hs, String.length_ne_zero_iff]
  · simp [Symbol, hr, hm, hs, he, String.length_ne_zero_iff]
  · simp [Decimals, hr, hm, String.length_ne_zero_iff]
  · simp [Decimals, hr, hm, hs, String.length_ne_zero_iff]
  · simp [Decimals, hr, hm, hs, he, String.length_ne_zero_iff]
  · simp [BalanceOf, hr, hm, String.length_ne_zero_iff]
  · simp [BalanceOf, hr, hm, hs, String.length_ne_zero_iff]
  · simp [BalanceOf, hr, hm, hs, he, String.length_ne_zero_iff]
  · simp [Transfer, hr, hm, String.length_ne_zero_iff]
  · simp [Transfer, hr, hm, hs, String.length_ne_zero_iff]
  · simp [Transfer, hr, hm, hs, he, String.length_ne_zero_iff]

/-- Witness of C4: a node error wins over a `FAULT` state and an empty stack, and a `FAULT`
state wins over an empty stack. -/
theorem checks_in_order_witness :
    TotalSupply sampleBuilder (sampleHelper (sampleError "unknown contract" "FAULT" []))
      sampleHash = some (0, some (fmt.Errorf "unknown contract")) ∧
    Name sampleBuilder (sampleHelper (sampleResponse "FAULT" [])) sampleHash =
      ([], some (fmt.Errorf "engine faulted")) ∧
    Transfer sampleBuilder (sampleHelper (sampleResponse "HALT" [])) sampleHash sampleHash
      sampleHash 100 = (false, some (fmt.Errorf "no stack result returned")) :=
  ⟨((checks_in_order (sampleError "unknown contract" "FAULT" []) sampleBuilder
      (sampleHelper (sampleError "unknown contract" "FAULT" [])) sampleHash sampleHash
      sampleHash sampleHash 100).1 rfl).1 (by decide),
    ((checks_in_order (sampleResponse "FAULT" []) sampleBuilder
      (sampleHelper (sampleResponse "FAULT" [])) sampleHash sampleHash
      sampleHash sampleHash 100).2.1 rfl).2.1 rfl rfl,
    ((checks_in_order (sampleResponse "HALT" []) sampleBuilder
      (sampleHelper (sampleResponse "HALT" [])) sampleHash sampleHash
      sampleHash sampleHash 100).2.2.2.2.2 rfl).2.2 rfl (by decide) rfl⟩

end nep5

namespace nep5

theorem ParseUint_decimal (s : String) :
    (s ≠ "" ∧ (∀ c ∈ s.toList, c.isDigit = true) ∧ decimalValue s.toList ≤ 255 ∧
      strconv.ParseUint s 10 8 = (decimalValue s.toList, none)) ∨
    (¬ (s ≠ "" ∧ (∀ c ∈ s.toList, c.isDigit = true) ∧ decimalValue s.toList ≤ 255) ∧
      ∃ v e, strconv.ParseUint s 10 8 = (v, some e)) := by
  by_cases hs : s = ""
  · right
    exact ⟨fun h => h.1 hs, 0, strconv.NumError.ErrSyntax, by simp [strconv.ParseUint, hs]⟩
  · have hu : strconv.ParseUint s 10 8 =
        strconv.parseUintLoop 10 ((2 ^ 64 - 1) / 10 + 1) (2 ^ 8 - 1) s.toList 0 := by
      unfold strconv.ParseUint
      rw [if_neg hs, if_neg (by decide), if_neg (by decide)]
    by_cases hc : (∀ c ∈ s.toList, c.isDigit = true) ∧ decimalValue s.toList ≤ 255
    · left
      exact ⟨hs, hc.1, hc.2, by rw [hu, parseUintLoop_ok s.toList 0 hc.1 hc.2]; rfl⟩
    · right
      refine ⟨fun h => hc h.2, ?_⟩
      rw [hu]
      exact parseUintLoop_err s.toList 0 (by omega) hc

/-- C5: for a response that passes the three checks, `Decimals` succeeds with value `k` exactly
when the first stack value is a base-10 unsigned integer literal denoting `k` with `k ≤ 255`,
and returns the error `conversion failed` with value 0 for every other text. -/
theorem decimals_parses (r : rpc.InvokeScriptResponse)
    (hmsg : r.ErrorResponse.Error.Message = "") (hstate : r.Result.State ≠ "FAULT")
    (stack : rpc.InvokeStack) (rest : List rpc.InvokeStack)
    (hstack : r.Result.Stack = stack :: rest)
    (sb : sc.ScriptBuilder) (n : Nep5Helper) (scriptHash : helper.UInt160)
    (hr : responseTo sb n scriptHash "decimals" [] = r) :
    (∀ k, Decimals sb n scriptHash = (k, none) ↔
      IsDecimalLiteral stack.Value k ∧ k ≤ 255) ∧
    ((¬ ∃ k, IsDecimalLiteral stack.Value k ∧ k ≤ 255) →
      Decimals sb n scriptHash = (0, some (fmt.Errorf "conversion failed"))) := by
  simp only [responseTo] at hr
  have hD : Decimals sb n scriptHash =
      match strconv.ParseUint stack.Value 10 8 with
      | (_, some _) => (0, some (fmt.Errorf "conversion failed"))
      | (decimals, none) => (decimals % 2 ^ 8, none) := by
    simp [Decimals, hr, hmsg, hstate, hstack]
  rcases ParseUint_decimal stack.Value with ⟨hs, hd, hv, hp⟩ | ⟨hno, v, e, hp⟩
  · have hmod : decimalValue stack.Value.toList % 2 ^ 8 = decimalValue stack.Value.toList :=
      Nat.mod_eq_of_lt (lt_of_le_of_lt hv (by norm_num))
    rw [hD, hp]
    simp only [hmod]
    constructor
    · intro k
      constructor
      · intro h
        have hk : decimalValue stack.Value.toList = k := (Prod.mk.inj h).1
        exact ⟨⟨hs, hd, hk⟩, by rw [← hk]; exact hv⟩
      · rintro ⟨⟨_, _, hk⟩, _⟩
        rw [hk]
    · intro h
      exact absurd ⟨_, ⟨hs, hd, rfl⟩, hv⟩ h
  · rw [hD, hp]
    constructor
    · intro k
      constructor
      · intro h
        simp at h
      · rintro ⟨⟨h1, h2, h3⟩, h4⟩
        exact absurd ⟨h1, h2, by rw [h3]; exact h4⟩ hno
    · intro _
      rfl

/-- Witness of C5: `8` decodes to 8 and `255` to 255, while `bad`, the empty text, a signed
number and `256` all give the error `conversion failed` with value 0. -/
theorem decimals_parses_witness :
    Decimals sampleBuilder (sampleHelper (sampleResponse "HALT" ["8"])) sampleHash = (8, none) ∧
    Decimals sampleBuilder (sampleHelper (sampleResponse "HALT" ["255"])) sampleHash =
      (255, none) ∧
    Decimals sampleBuilder (sampleHelper (sampleResponse "HALT" ["bad"])) sampleHash =
      (0, some (fmt.Errorf "conversion failed")) ∧
    Decimals sampleBuilder (sampleHelper (sampleResponse "HALT" [""])) sampleHash =
      (0, some (fmt.Errorf "conversion failed")) ∧
    Decimals sampleBuilder (sampleHelper (sampleResponse "HALT" ["+8"])) sampleHash =
      (0, some (fmt.Errorf "conversion failed")) ∧
    Decimals sampleBuilder (sampleHelper (sampleResponse "HALT" ["256"])) sampleHash =
      (0, some (fmt.Errorf "conversion failed")) :=
  ⟨((decimals_parses (sampleResponse "HALT" ["8"]) rfl (by decide)
      { Type_ := "ByteArray", Value := "8" } [] rfl sampleBuilder
      (sampleHelper (sampleResponse "HALT" ["8"])) sampleHash rfl).1 8).2
      (by decide),
    ((decimals_parses (sampleResponse "HALT" ["255"]) rfl (by decide)
      { Type_ := "ByteArray", Value := "255" } [] rfl sampleBuilder
      (sampleHelper (sampleResponse "HALT" ["255"])) sampleHash rfl).1 255).2
      (by decide),
    (decimals_parses (sampleResponse "HALT" ["bad"]) rfl (by decide)
      { Type_ := "ByteArray", Value := "bad" } [] rfl sampleBuilder
      (sampleHelper (sampleResponse "HALT" ["bad"])) sampleHash rfl).2
      (by rintro ⟨k, h, -⟩; exact absurd h.2.1 (by decide)),
    (decimals_parses (sampleResponse "HALT" [""]) rfl (by decide)
      { Type_ := "ByteArray", Value := "" } [] rfl sampleBuilder
      (sampleHelper (sampleResponse "HALT" [""])) sampleHash rfl).2
      (by rintro ⟨k, h, -⟩; exact absurd h.1 (by decide)),
    (decimals_parses (sampleResponse "HALT" ["+8"]) rfl (by decide)
      { Type_ := "ByteArray", Value := "+8" } [] rfl sampleBuilder
      (sampleHelper (sampleResponse "HALT" ["+8"])) sampleHash rfl).2
      (by rintro ⟨k, h, -⟩; exact absurd h.2.1 (by decide)),
    (decimals_parses (sampleResponse "HALT" ["256"]) rfl (by decide)
      { Type_ := "ByteArray", Value := "256" } [] rfl sampleBuilder
      (sampleHelper (sampleResponse "HALT" ["256"])) sampleHash rfl).2
      (by
        rintro ⟨k, h, hk⟩
        have h256 : decimalValue "256".toList = 256 := by decide
        have hk2 : decimalValue "256".toList = k := h.2.2
        omega)⟩

/-- C6: for a response that passes the three checks, `Transfer` returns the boolean the first
stack value denotes when it is a boolean literal, and the error `conversion failed` with value
`false` when it is not; the contract, sender, receiver and amount have no influence once the
response is fixed. -/
theorem transfer_parses (r : rpc.InvokeScriptResponse)
    (hmsg : r.ErrorResponse.Error.Message = "") (hstate : r.Result.State ≠ "FAULT")
    (stack : rpc.InvokeStack) (rest : List rpc.InvokeStack)
    (hstack : r.Result.Stack = stack :: rest) :
    (∀ (sb : sc.ScriptBuilder) (n : Nep5Helper) (scriptHash from_ to_ : helper.UInt160)
        (amount : Nat),
      responseTo sb n scriptHash "transfer" [hash160 from_, hash160 to_, integer amount] = r →
        Transfer sb n scriptHash from_ to_ amount =
          match boolLiteral stack.Value with
          | some b => (b, none)
          | none => (false, some (fmt.Errorf "conversion failed"))) ∧
    (∀ (sb : sc.ScriptBuilder) (n : Nep5Helper) (scriptHash from_ to_ : helper.UInt160)
        (amount : Nat) (scriptHash2 from2 to2 : helper.UInt160) (amount2 : Nat),
      responseTo sb n scriptHash "transfer" [hash160 from_, hash160 to_, integer amount] = r →
      responseTo sb n scriptHash2 "transfer" [hash160 from2, hash160 to2, integer amount2] = r →
        Transfer sb n scriptHash from_ to_ amount =
          Transfer sb n scriptHash2 from2 to2 amount2) := by
  have key : ∀ (sb : sc.ScriptBuilder) (n : Nep5Helper) (scriptHash from_ to_ : helper.UInt160)
      (amount : Nat),
      responseTo sb n scriptHash "transfer" [hash160 from_, hash160 to_, integer amount] = r →
        Transfer sb n scriptHash from_ to_ amount =
          match boolLiteral stack.Value with
          | some b => (b, none)
          | none => (false, some (fmt.Errorf "conversion failed")) := by
    intro sb n scriptHash from_ to_ amount hr
    simp only [responseTo, hash160, integer] at hr
    have hT : Transfer sb n scriptHash from_ to_ amount =
        match strconv.ParseBool stack.Value with
        | (_, some _) => (false, some (fmt.Errorf "conversion failed"))
        | (b, none) => (b, none) := by
      simp [Transfer, hr, hmsg, hstate, hstack]
    rw [hT]
    unfold strconv.ParseBool boolLiteral
    by_cases h1 : stack.Value = "1" ∨ stack.Value = "t" ∨ stack.Value = "T" ∨
        stack.Value = "true" ∨ stack.Value = "TRUE" ∨ stack.Value = "True"
    · have h1m : stack.Value ∈ ["1", "t", "T", "TRUE", "true", "True"] := by
        simp only [List.mem_cons, List.mem_singleton, List.not_mem_nil, or_false]
        tauto
      rw [if_pos h1, if_pos h1m]
    · have h1m : ¬ stack.Value ∈ ["1", "t", "T", "TRUE", "true", "True"] := by
        simp only [List.mem_cons, List.mem_singleton, List.not_mem_nil, or_false]
        tauto
      rw [if_neg h1, if_neg h1m]
      by_cases h2 : stack.Value = "0" ∨ stack.Value = "f" ∨ stack.Value = "F" ∨
          stack.Value = "false" ∨ stack.Value = "FALSE" ∨ stack.Value = "False"
      · have h2m : stack.Value ∈ ["0", "f", "F", "FALSE", "false", "False"] := by
          simp only [List.mem_cons, List.mem_singleton, List.not_mem_nil, or_false]
          tauto
        rw [if_pos h2, if_pos h2m]
      · have h2m : ¬ stack.Value ∈ ["0", "f", "F", "FALSE", "false", "False"] := by
          simp only [List.mem_cons, List.mem_singleton, List.not_mem_nil, or_false]
          tauto
        rw [if_neg h2, if_neg h2m]
  refine ⟨key, ?_⟩
  intro sb n scriptHash from_ to_ amount scriptHash2 from2 to2 amount2 h1 h2
  rw [key sb n scriptHash from_ to_ amount h1, key sb n scriptHash2 from2 to2 amount2 h2]

/-- Witness of C6: `true` gives true, `false` gives false and `yes` gives the error
`conversion failed`, for any amount. -/
theorem transfer_parses_witness :
    Transfer sampleBuilder (sampleHelper (sampleResponse "HALT" ["true"])) sampleHash sampleHash
      sampleHash 100 = (true, none) ∧
    Transfer sampleBuilder (sampleHelper (sampleResponse "HALT" ["false"])) sampleHash sampleHash
      sampleHash 100 = (false, none) ∧
    Transfer sampleBuilder (sampleHelper (sampleResponse "HALT" ["yes"])) sampleHash sampleHash
      sampleHash 7 = (false, some (fmt.Errorf "conversion failed")) :=
  ⟨(transfer_parses (sampleResponse "HALT" ["true"]) rfl (by decide)
      { Type_ := "ByteArray", Value := "true" } [] rfl).1 sampleBuilder _ sampleHash sampleHash
      sampleHash 100 rfl,
    (transfer_parses (sampleResponse "HALT" ["false"]) rfl (by decide)
      { Type_ := "ByteArray", Value := "false" } [] rfl).1 sampleBuilder _ sampleHash sampleHash
      sampleHash 100 rfl,
    (transfer_parses (sampleResponse "HALT" ["yes"]) rfl (by decide)
      { Type_ := "ByteArray", Value := "yes" } [] rfl).1 sampleBuilder _ sampleHash sampleHash
      sampleHash 7 rfl⟩

end nep5

/-! ## The transport client -/

namespace rpc

variable {σ ρ α : Type} [Inhabited ρ]

theorem makeRequest_requests (lib : Lib) (json : Decoder α) (n : RpcClient σ) (method : String)
    (params : List Param) (out : α) (w : World σ) :
    (makeRequest lib json n method params out w).world.requests =
      w.requests ++ [NewRequest method params] := by
  unfold makeRequest
  simp only []
  split
  · rfl
  · split
    · rfl
    · split <;> rfl

theorem makeRequest_of_build_error (lib : Lib) (json : Decoder α) (n : RpcClient σ)
    (method : String) (params : List Param) (out : α) (w : World σ) (e : GoError)
    (h : lib.NewRequest "POST" n.Endpoint (lib.Marshal (NewRequest method params)) =
      Except.error e) :
    makeRequest lib json n method params out w =
      { out := out, err := some e,
        world := { w with requests := w.requests ++ [NewRequest method params] } } := by
  unfold makeRequest
  simp [h]

theorem makeRequest_of_built (lib : Lib) (json : Decoder α) (n : RpcClient σ)
    (method : String) (params : List Param) (out : α) (w : World σ) (req : HttpRequest)
    (h : lib.NewRequest "POST" n.Endpoint (lib.Marshal (NewRequest method params)) =
      Except.ok req) :
    makeRequest lib json n method params out w =
      { out :=
          match (n.httpClient.Do (prepared req) w.net).1 with
          | Except.error _ => out
          | Except.ok body => (json body out).1,
        err :=
          match (n.httpClient.Do (prepared req) w.net).1 with
          | Except.error e => some e
          | Except.ok body => (json body out).2,
        world :=
          { net := (n.httpClient.Do (prepared req) w.net).2,
            requests := w.requests ++ [NewRequest method params],
            exchanges := w.exchanges ++ [prepared req] } } := by
  unfold makeRequest prepared
  simp only [h]
  generalize n.httpClient.Do _ w.net = d
  rcases d with ⟨_ | body, net⟩
  · rfl
  · simp only []
    cases hj : (json body out).2 <;> simp [hj]

theorem callOnce_requests (lib : Lib) (json : Decoder (Response α)) [Inhabited α]
    (n : RpcClient σ) (method : String) (params : List Param) (w : World σ) :
    (callOnce lib json n method params w).2.requests =
      w.requests ++ [NewRequest method params] := by
  unfold callOnce
  simp only []
  split <;> exact makeRequest_requests _ _ _ _ _ _ _

theorem callOnce_world (lib : Lib) (json : Decoder (Response α)) [Inhabited α]
    (n : RpcClient σ) (method : String) (params : List Param) (w : World σ) :
    (callOnce lib json n method params w).2 =
      (makeRequest lib json n method params Response.zero w).world := by
  unfold callOnce
  simp only []
  split <;> rfl

theorem callOnce_of_build_error (lib : Lib) (json : Decoder (Response α)) [Inhabited α]
    (n : RpcClient σ) (method : String) (params : List Param) (w : World σ) (e : GoError)
    (h : lib.NewRequest "POST" n.Endpoint (lib.Marshal (NewRequest method params)) =
      Except.error e) :
    callOnce lib json n method params w =
      ({ ErrorResponse := { Error := { Code := 0, Message := e.Error } }, Result := default },
        { w with requests := w.requests ++ [NewRequest method params] }) := by
  unfold callOnce
  rw [makeRequest_of_build_error lib json n method params _ w e h]
  rfl

theorem callOnce_of_built (lib : Lib) (json : Decoder (Response α)) [Inhabited α]
    (n : RpcClient σ) (method : String) (params : List Param) (w : World σ) (req : HttpRequest)
    (h : lib.NewRequest "POST" n.Endpoint (lib.Marshal (NewRequest method params)) =
      Except.ok req) :
    callOnce lib json n method params w =
      ((match (n.httpClient.Do (prepared req) w.net).1 with
        | Except.error e =>
          { ErrorResponse := { Error := { Code := 0, Message := e.Error } }, Result := default }
        | Except.ok body =>
          match (json body Response.zero).2 with
          | some e =>
            { (json body Response.zero).1 with
              ErrorResponse := { Error := { Code := 0, Message := e.Error } } }
          | none => (json body Response.zero).1),
        { net := (n.httpClient.Do (prepared req) w.net).2,
          requests := w.requests ++ [NewRequest method params],
          exchanges := w.exchanges ++ [prepared req] }) := by
  unfold callOnce
  rw [makeRequest_of_built lib json n method params _ w req h]
  generalize n.httpClient.Do (prepared req) w.net = d
  rcases d with ⟨e | body, net⟩
  · rfl
  · simp only []
    cases hj : (json body Response.zero).2 <;> rfl

theorem callOnce_failureReported (lib : Lib) (json : Decoder (Response α)) [Inhabited α]
    (n : RpcClient σ) (method : String) (params : List Param) (w : World σ) :
    FailureReported lib json n (NewRequest method params) w
      (callOnce lib json n method params w).1 := by
  refine ⟨?_, ?_, ?_⟩
  · intro e h
    rw [callOnce_of_build_error lib json n method params w e h]
  · intro req e h hdo
    rw [callOnce_of_built lib json n method params w req h]
    simp only [hdo]
  · intro req body e h hdo hj
    rw [callOnce_of_built lib json n method params w req h]
    simp only [hdo, hj]

theorem ClaimGas_eq_callOnce (lib : Lib) (json : Decoder (Response ρ)) (n : RpcClient σ)
    (address : String) (w : World σ) :
    ClaimGas lib json n address w = callOnce lib json n "claimgas" [Param.string address] w := by
  unfold ClaimGas callOnce
  simp only []
  cases (makeRequest lib json n "claimgas" [Param.string address] Response.zero w).err <;> rfl

theorem Op.run_eq_callOnce (lib : Lib) (json : Json ρ) (n : RpcClient σ) (op : Op)
    (h : op.single = true) (w : World σ) :
    op.run lib json n w =
      callOnce lib (json.decoderFor op) n op.request.Method op.request.Params w := by
  cases op
  case GetBlockHeaderByIndex => simp [Op.single] at h
  case ClaimGas address => exact ClaimGas_eq_callOnce lib json.Decode n address w
  all_goals rfl

theorem Op.request_eq (op : Op) : NewRequest op.request.Method op.request.Params = op.request := by
  cases op <;> rfl

end rpc

namespace rpc

variable {σ ρ α : Type} [Inhabited ρ]

/-- C7, as the code has it: when the request of an operation fails with an error `e`, the
operation still returns a result object, with code 0 and the message text of `e` in its error
slot. After a failure to build the HTTP request or a failed HTTP exchange the object is
otherwise the zero value; after a decoding failure it holds whatever the decoder stored. This
holds for every operation that issues a single request, with the request `op.request`, and for
the header request of `GetBlockHeaderByIndex`, issued for the hash its hash request left. -/
theorem failure_is_reported (lib : Lib) (json : Json ρ) (n : RpcClient σ) (w : World σ) :
    (∀ op : Op, op.single = true →
      FailureReported lib (json.decoderFor op) n op.request w (op.run lib json n w).1) ∧
    (∀ index : Nat,
      FailureReported lib json.Decode n
        (NewRequest "getblockheader"
          [Param.string (GetBlockHash lib json.DecodeHash n index w).1.Result, Param.int 1])
        (GetBlockHash lib json.DecodeHash n index w).2
        (GetBlockHeaderByIndex lib json.DecodeHash json.Decode n index w).1) := by
  constructor
  · intro op hsingle
    have h := callOnce_failureReported lib (json.decoderFor op) n op.request.Method
      op.request.Params w
    rw [Op.request_eq op] at h
    rw [Op.run_eq_callOnce lib json n op hsingle w]
    exact h
  · intro index
    exact callOnce_failureReported lib json.Decode n "getblockheader" _ _

/-- Witness of C7 as amended. A failed exchange makes `GetBlockCount` return the zero payload
with the text of the transport error; a body whose decoding fails makes it return the decoding
error next to the payload the decoder stored; and `GetBlockHeaderByIndex` returns the text of
the transport error of its header request. -/
theorem failure_is_reported_witness :
    (GetBlockCount sampleLib sampleJson.Decode (sampleClient flakyNode) freshWorld).1 =
      { ErrorResponse :=
          { Error := { Code := 0, Message := "read tcp: connection reset by peer" } },
        Result := (0 : Int) } ∧
    (GetBlockCount sampleLib sampleJson.Decode (sampleClient mistypingNode) freshWorld).1 =
      { ErrorResponse :=
          { Error :=
            { Code := 0,
              Message := "json: cannot unmarshal string into Go struct field .id of type int" } },
        Result := (5 : Int) } ∧
    (GetBlockHeaderByIndex sampleLib sampleJson.DecodeHash sampleJson.Decode
      (sampleClient lateFailingNode) 7 freshWorld).1 =
      { ErrorResponse :=
          { Error := { Code := 0, Message := "read tcp: connection reset by peer" } },
        Result := (0 : Int) } :=
  ⟨((failure_is_reported sampleLib sampleJson (sampleClient flakyNode) freshWorld).1
      Op.GetBlockCount rfl).2.1 _ { Error := "read tcp: connection reset by peer" } rfl rfl,
    ((failure_is_reported sampleLib sampleJson (sampleClient mistypingNode) freshWorld).1
      Op.GetBlockCount rfl).2.2 _ mistypedId
      { Error := "json: cannot unmarshal string into Go struct field .id of type int" }
      rfl rfl rfl,
    ((failure_is_reported sampleLib sampleJson (sampleClient lateFailingNode) freshWorld).2
      7).2.1 _ { Error := "read tcp: connection reset by peer" } rfl rfl⟩

/-- Counterexample to C7 as stated. First, the hash request of `GetBlockHeaderByIndex` fails
with a transport error while the header request that follows is answered: the returned object
carries an empty error message, not the text of the failure. Second, a body whose `result` is
stored before a type mismatch is reported makes `GetBlockCount` return the decoding error next
to the payload 5, not the zero value. -/
theorem failure_is_reported_counterexample :
    ((makeRequest sampleLib sampleJson.DecodeHash (sampleClient flakyNode) "getblockhash"
        [Param.uint32 7] Response.zero freshWorld).err =
        some { Error := "read tcp: connection reset by peer" } ∧
      (GetBlockHeaderByIndex sampleLib sampleJson.DecodeHash sampleJson.Decode
        (sampleClient flakyNode) 7 freshWorld).1.ErrorResponse.Error.Message = "") ∧
    ((makeRequest sampleLib sampleJson.Decode (sampleClient mistypingNode) "getblockcount" []
        Response.zero freshWorld).err =
        some { Error := "json: cannot unmarshal string into Go struct field .id of type int" } ∧
      (GetBlockCount sampleLib sampleJson.Decode (sampleClient mistypingNode)
        freshWorld).1.Result = 5 ∧
      (GetBlockCount sampleLib sampleJson.Decode (sampleClient mistypingNode)
        freshWorld).1.Result ≠ default) := by
  refine ⟨⟨?_, ?_⟩, ?_, ?_, ?_⟩ <;> decide

/-- C8: `GetNep5Transfers` sends the method name `getnep5balances`, the one `GetNep5Balances`
sends, and not `getnep5transfers`. -/
theorem GetNep5Transfers_sends_getnep5balances (lib : Lib) (json : Decoder (Response ρ))
    (n : RpcClient σ) (address : String) (w : World σ) :
    (GetNep5Transfers lib json n address w).2.requests =
      w.requests ++ [NewRequest "getnep5balances" [Param.string address]] ∧
    (GetNep5Transfers lib json n address w).2.requests =
      (GetNep5Balances lib json n address w).2.requests ∧
    (NewRequest "getnep5balances" [Param.string address]).Method ≠ "getnep5transfers" := by
  refine ⟨callOnce_requests lib json n "getnep5balances" [Param.string address] w, rfl, ?_⟩
  show "getnep5balances" ≠ "getnep5transfers"
  decide

/-- C9, as the code has it: every operation other than `GetBlockHeaderByIndex` invokes
`makeRequest` exactly once per call, and that invocation hands the request it built to the
HTTP client exactly once: the state behind the client after the call is the state one call of
`Do` on that request leaves, so there is no second request and no retry (and no exchange at
all when the HTTP request cannot be built). `GetBlockHeaderByIndex` invokes `makeRequest`
exactly twice, for `getblockhash` and then for `getblockheader` with the hash the first
invocation left, whatever the first returned. -/
theorem invocations_per_call (lib : Lib) (json : Json ρ) (n : RpcClient σ) (w : World σ) :
    (∀ op : Op, op.single = true →
      (op.run lib json n w).2 =
        (makeRequest lib (json.decoderFor op) n op.request.Method op.request.Params
          Response.zero w).world ∧
      (∀ req, lib.NewRequest "POST" n.Endpoint (lib.Marshal op.request) = Except.ok req →
        (op.run lib json n w).2.net = (n.httpClient.Do (prepared req) w.net).2) ∧
      (∀ e, lib.NewRequest "POST" n.Endpoint (lib.Marshal op.request) = Except.error e →
        (op.run lib json n w).2.net = w.net)) ∧
    (∀ index : Nat,
      (GetBlockHash lib json.DecodeHash n index w).2 =
        (makeRequest lib json.DecodeHash n "getblockhash" [Param.uint32 index]
          Response.zero w).world ∧
      (Op.run lib json n (Op.GetBlockHeaderByIndex index) w).2 =
        (makeRequest lib json.Decode n "getblockheader"
          [Param.string (GetBlockHash lib json.DecodeHash n index w).1.Result, Param.int 1]
          Response.zero (GetBlockHash lib json.DecodeHash n index w).2).world ∧
      (∀ req1 req2,
        lib.NewRequest "POST" n.Endpoint
          (lib.Marshal (NewRequest "getblockhash" [Param.uint32 index])) = Except.ok req1 →
        lib.NewRequest "POST" n.Endpoint
          (lib.Marshal (NewRequest "getblockheader"
            [Param.string (GetBlockHash lib json.DecodeHash n index w).1.Result,
              Param.int 1])) = Except.ok req2 →
        (Op.run lib json n (Op.GetBlockHeaderByIndex index) w).2.net =
          (n.httpClient.Do (prepared req2) (n.httpClient.Do (prepared req1) w.net).2).2)) := by
  constructor
  · intro op hsingle
    rw [Op.run_eq_callOnce lib json n op hsingle w]
    refine ⟨callOnce_world _ _ _ _ _ _, ?_, ?_⟩
    · intro req h
      rw [← Op.request_eq op] at h
      rw [callOnce_of_built lib _ n _ _ w req h]
    · intro e h
      rw [← Op.request_eq op] at h
      rw [callOnce_of_build_error lib _ n _ _ w e h]
  · intro index
    refine ⟨callOnce_world lib json.DecodeHash n _ _ w,
      callOnce_world lib json.Decode n _ _ _, ?_⟩
    intro req1 req2 h1 h2
    show (callOnce lib json.Decode n "getblockheader" _
      (callOnce lib json.DecodeHash n "getblockhash" _ w).2).2.net = _
    rw [callOnce_of_built lib json.Decode n _ _ _ req2 h2]
    show (n.httpClient.Do (prepared req2)
      (callOnce lib json.DecodeHash n "getblockhash" [Param.uint32 index] w).2.net).2 = _
    rw [callOnce_of_built lib json.DecodeHash n _ _ w req1 h1]

/-- Witness of C9 as amended: after `GetBlockCount` the sample node, which counts the exchanges
it served, has served one. -/
theorem invocations_per_call_witness :
    (Op.run sampleLib sampleJson (sampleClient flakyNode) Op.GetBlockCount freshWorld).2.net =
      1 :=
  ((invocations_per_call sampleLib sampleJson (sampleClient flakyNode) freshWorld).1
    Op.GetBlockCount rfl).2.1 _ rfl

/-- Counterexample to C9 as stated: one call of `GetBlockHeaderByIndex` invokes `makeRequest`
twice, for `getblockhash` and for `getblockheader`, and the sample node, which counts the
exchanges it served, has served two. -/
theorem invocations_per_call_counterexample :
    (Op.run sampleLib sampleJson (sampleClient flakyNode) (Op.GetBlockHeaderByIndex 7)
      freshWorld).2.requests.map (fun q => q.Method) = ["getblockhash", "getblockheader"] ∧
    (Op.run sampleLib sampleJson (sampleClient flakyNode) (Op.GetBlockHeaderByIndex 7)
      freshWorld).2.net = 2 := by
  refine ⟨?_, ?_⟩ <;> decide

/-- C10: the block and header queries append the literal 1 after their semantic argument:
`GetBlockByHash` sends `getblock` with `[h, 1]`, `GetBlockByIndex` sends `getblock` with
`[i, 1]`, `GetBlockHeaderByHash` sends `getblockheader` with `[h, 1]`, and
`GetBlockHeaderByIndex` sends `getblockhash` with `[i]` and then `getblockheader` with
`[h', 1]`, where `h'` is the result of that hash request. These are the requests handed to
`makeRequest`, and each is what the HTTP client receives: the HTTP request built from the
marshalled envelope, with the two headers set, is the one `Do` is called on, once. -/
theorem block_queries_append_verbosity (lib : Lib) (json : Decoder (Response ρ))
    (jsonHash : Decoder (Response String)) (n : RpcClient σ) (h : String) (i : Nat)
    (w : World σ) :
    ((GetBlockByHash lib json n h w).2.requests =
        w.requests ++ [NewRequest "getblock" [Param.string h, Param.int 1]] ∧
      (GetBlockByIndex lib json n i w).2.requests =
        w.requests ++ [NewRequest "getblock" [Param.uint32 i, Param.int 1]] ∧
      (GetBlockHeaderByHash lib json n h w).2.requests =
        w.requests ++ [NewRequest "getblockheader" [Param.string h, Param.int 1]] ∧
      (GetBlockHeaderByIndex lib jsonHash json n i w).2.requests =
        w.requests ++ [NewRequest "getblockhash" [Param.uint32 i],
          NewRequest "getblockheader"
            [Param.string (GetBlockHash lib jsonHash n i w).1.Result, Param.int 1]]) ∧
    (∀ req,
      lib.NewRequest "POST" n.Endpoint
        (lib.Marshal (NewRequest "getblock" [Param.string h, Param.int 1])) = Except.ok req →
      (GetBlockByHash lib json n h w).2.net = (n.httpClient.Do (prepared req) w.net).2 ∧
      (GetBlockByHash lib json n h w).2.exchanges = w.exchanges ++ [prepared req]) ∧
    (∀ req,
      lib.NewRequest "POST" n.Endpoint
        (lib.Marshal (NewRequest "getblock" [Param.uint32 i, Param.int 1])) = Except.ok req →
      (GetBlockByIndex lib json n i w).2.net = (n.httpClient.Do (prepared req) w.net).2 ∧
      (GetBlockByIndex lib json n i w).2.exchanges = w.exchanges ++ [prepared req]) ∧
    (∀ req,
      lib.NewRequest "POST" n.Endpoint
        (lib.Marshal (NewRequest "getblockheader" [Param.string h, Param.int 1])) =
        Except.ok req →
      (GetBlockHeaderByHash lib json n h w).2.net = (n.httpClient.Do (prepared req) w.net).2 ∧
      (GetBlockHeaderByHash lib json n h w).2.exchanges = w.exchanges ++ [prepared req]) ∧
    (∀ req1 req2,
      lib.NewRequest "POST" n.Endpoint
        (lib.Marshal (NewRequest "getblockhash" [Param.uint32 i])) = Except.ok req1 →
      lib.NewRequest "POST" n.Endpoint
        (lib.Marshal (NewRequest "getblockheader"
          [Param.string (GetBlockHash lib jsonHash n i w).1.Result, Param.int 1])) =
        Except.ok req2 →
      (GetBlockHash lib jsonHash n i w).2.net = (n.httpClient.Do (prepared req1) w.net).2 ∧
      (GetBlockHeaderByIndex lib jsonHash json n i w).2.net =
        (n.httpClient.Do (prepared req2) (n.httpClient.Do (prepared req1) w.net).2).2 ∧
      (GetBlockHeaderByIndex lib jsonHash json n i w).2.exchanges =
        w.exchanges ++ [prepared req1, prepared req2]) := by
  refine ⟨⟨callOnce_requests lib json n _ _ w, callOnce_requests lib json n _ _ w,
    callOnce_requests lib json n _ _ w, ?_⟩, ?_, ?_, ?_, ?_⟩
  · show (callOnce lib json n "getblockheader" _
      (callOnce lib jsonHash n "getblockhash" _ w).2).2.requests = _
    rw [callOnce_requests, callOnce_requests]
    simp
  · intro req hreq
    show (callOnce lib json n "getblock" _ w).2.net = _ ∧
      (callOnce lib json n "getblock" _ w).2.exchanges = _
    rw [callOnce_of_built lib json n _ _ w req hreq]
    exact ⟨rfl, rfl⟩
  · intro req hreq
    show (callOnce lib json n "getblock" _ w).2.net = _ ∧
      (callOnce lib json n "getblock" _ w).2.exchanges = _
    rw [callOnce_of_built lib json n _ _ w req hreq]
    exact ⟨rfl, rfl⟩
  · intro req hreq
    show (callOnce lib json n "getblockheader" _ w).2.net = _ ∧
      (callOnce lib json n "getblockheader" _ w).2.exchanges = _
    rw [callOnce_of_built lib json n _ _ w req hreq]
    exact ⟨rfl, rfl⟩
  · intro req1 req2 h1 h2
    have e1 := callOnce_of_built lib jsonHash n "getblockhash" [Param.uint32 i] w req1 h1
    have e2 := callOnce_of_built lib json n "getblockheader"
      [Param.string (GetBlockHash lib jsonHash n i w).1.Result, Param.int 1]
      (callOnce lib jsonHash n "getblockhash" [Param.uint32 i] w).2 req2 h2
    have hfirst : (GetBlockHash lib jsonHash n i w).2.net =
        (n.httpClient.Do (prepared req1) w.net).2 := by
      show (callOnce lib jsonHash n "getblockhash" [Param.uint32 i] w).2.net = _
      rw [e1]
    have hfirstx : (GetBlockHash lib jsonHash n i w).2.exchanges =
        w.exchanges ++ [prepared req1] := by
      show (callOnce lib jsonHash n "getblockhash" [Param.uint32 i] w).2.exchanges = _
      rw [e1]
    have hrun : GetBlockHeaderByIndex lib jsonHash json n i w =
        callOnce lib json n "getblockheader"
          [Param.string (GetBlockHash lib jsonHash n i w).1.Result, Param.int 1]
          (callOnce lib jsonHash n "getblockhash" [Param.uint32 i] w).2 := rfl
    refine ⟨hfirst, ?_, ?_⟩
    · rw [hrun, e2]
      show (n.httpClient.Do (prepared req2) (GetBlockHash lib jsonHash n i w).2.net).2 = _
      rw [hfirst]
    · rw [hrun, e2]
      show (GetBlockHash lib jsonHash n i w).2.exchanges ++ [prepared req2] = _
      rw [hfirstx]
      simp

/-- Witness of C10: the requests the recording node was handed. `GetBlockByHash` on the hash
`0xabc` hands it one HTTP request whose body names the method `getblock` with the parameters
`["0xabc",1]`; `GetBlockHeaderByIndex` on the index 7 hands it `getblockhash` with `[7]` and
then `getblockheader` with `["0x1f",1]`, where `0x1f` is the hash the sample decoder stored. -/
theorem block_queries_append_verbosity_witness :
    (GetBlockByHash sampleLib sampleJson.Decode recordingClient "0xabc" freshRecording).2.net =
      [{ Method := "POST", URL := "http://seed1.ngd.network:20332",
         Body := ascii
           "\x7b\"jsonrpc\":\"2.0\",\"method\":\"getblock\",\"params\":[\"0xabc\",1]\x7d",
         Header := [("Content-Type", ["application/json"]), ("Connection", ["close"])],
         Close := true }] ∧
    (GetBlockHeaderByIndex sampleLib sampleJson.DecodeHash sampleJson.Decode recordingClient 7
      freshRecording).2.net.map (fun req => req.Body) =
      [ascii "\x7b\"jsonrpc\":\"2.0\",\"method\":\"getblockhash\",\"params\":[7]\x7d",
        ascii
          "\x7b\"jsonrpc\":\"2.0\",\"method\":\"getblockheader\",\"params\":[\"0x1f\",1]\x7d"] :=
  ⟨((block_queries_append_verbosity sampleLib sampleJson.Decode sampleJson.DecodeHash
      recordingClient "0xabc" 7 freshRecording).2.1 _ rfl).1.trans (by decide),
    (congrArg (List.map (fun req => req.Body))
      ((block_queries_append_verbosity sampleLib sampleJson.Decode sampleJson.DecodeHash
        recordingClient "0xabc" 7 freshRecording).2.2.2.2 _ _ rfl rfl).2.1).trans
      (by decide)⟩

end rpc

namespace rpc

variable {σ ρ α : Type} [Inhabited ρ]

/-- Every single-request operation other than `GetNep5Transfers` sends the method name the
naming rule gives it. -/
theorem method_names_follow_rule (lib : Lib) (json : Json ρ) (n : RpcClient σ) (op : Op)
    (w : World σ) (hsingle : op.single = true)
    (hop : ∀ address, op ≠ Op.GetNep5Transfers address) :
    ∃ q, (op.run lib json n w).2.requests = w.requests ++ [q] ∧
      q.Method = ruleMethod op.name := by
  cases op
  case GetBlockHeaderByIndex => simp [Op.single] at hsingle
  case GetNep5Transfers address => exact absurd rfl (hop address)
  case ClaimGas address =>
    refine ⟨NewRequest "claimgas" [Param.string address], ?_,
      by simp only [NewRequest, Op.name]; decide⟩
    show (ClaimGas lib json.Decode n address w).2.requests = _
    rw [ClaimGas_eq_callOnce, callOnce_requests]
  all_goals exact ⟨NewRequest _ _, callOnce_requests lib _ n _ _ w,
    by simp only [NewRequest, Op.name]; decide⟩

end rpc

/-! ## The token helper: states other than `FAULT`, and values longer than eight bytes -/

namespace nep5

theorem littleEndianValue_cons (x : Nat) (xs : List Nat) :
    littleEndianValue (x :: xs) = x + 256 * littleEndianValue xs := by
  unfold littleEndianValue
  rw [List.length_cons, List.range_succ_eq_map, List.map_cons, List.sum_cons, List.map_map,
    ← List.sum_map_mul_left]
  simp only [List.getD_cons_zero, pow_zero, mul_one, Nat.add_left_cancel_iff]
  congr 1
  apply List.map_congr_left
  intro i _
  simp only [Function.comp_apply, List.getD_cons_succ, pow_succ]
  ring

theorem littleEndianValue_append (l1 l2 : List Nat) :
    littleEndianValue (l1 ++ l2) =
      littleEndianValue l1 + 256 ^ l1.length * littleEndianValue l2 := by
  induction l1 with
  | nil => simp [littleEndianValue]
  | cons x xs ih =>
    rw [List.cons_append, littleEndianValue_cons, littleEndianValue_cons, ih, List.length_cons,
      pow_succ]
    ring

theorem Uint64_of_length_ge (b : List Nat) (hlen : 8 ≤ b.length) (hb : ∀ x ∈ b, x < 256) :
    binary.LittleEndian.Uint64 b = some (littleEndianValue (b.take 8)) ∧
      littleEndianValue (b.take 8) < 2 ^ 64 := by
  rcases b with _ | ⟨b0, _ | ⟨b1, _ | ⟨b2, _ | ⟨b3, _ | ⟨b4, _ | ⟨b5, _ | ⟨b6, _ |
    ⟨b7, r⟩⟩⟩⟩⟩⟩⟩⟩
  all_goals first
    | (simp only [List.length_cons, List.length_nil] at hlen; omega)
    | (have h0 := hb b0 (by simp)
       have h1 := hb b1 (by simp)
       have h2 := hb b2 (by simp)
       have h3 := hb b3 (by simp)
       have h4 := hb b4 (by simp)
       have h5 := hb b5 (by simp)
       have h6 := hb b6 (by simp)
       have h7 := hb b7 (by simp)
       rw [binary.LittleEndian.Uint64_eq_sum _ _ _ _ _ _ _ _ _ h0 h1 h2 h3 h4 h5 h6]
       constructor
       · simp [littleEndianValue, List.range_succ]
         omega
       · simp [littleEndianValue, List.range_succ]
         omega)

theorem padTo8_of_length_ge (b : List Nat) (hlen : 8 ≤ b.length) : padTo8 b = b := by
  rw [padTo8_eq, Nat.sub_eq_zero_of_le hlen]
  simp

theorem littleEndianValue_take_eq_mod (b : List Nat) (hlen : 8 ≤ b.length)
    (hb : ∀ x ∈ b, x < 256) :
    littleEndianValue (b.take 8) = littleEndianValue b % 2 ^ 64 := by
  have hlt := (Uint64_of_length_ge b hlen hb).2
  have hsplit : littleEndianValue b =
      littleEndianValue (b.take 8) + 2 ^ 64 * littleEndianValue (b.drop 8) := by
    conv_lhs => rw [← List.take_append_drop 8 b]
    rw [littleEndianValue_append, List.length_take, Nat.min_eq_left hlen]
    norm_num
  rw [hsplit, Nat.add_mul_mod_self_left, Nat.mod_eq_of_lt hlt]

end nep5

namespace nep5

theorem ParseBool_boolLiteral (s : String) :
    (match strconv.ParseBool s with
      | (_, some _) => (false, some (fmt.Errorf "conversion failed"))
      | (b, none) => (b, none)) =
    (match boolLiteral s with
      | some b => (b, none)
      | none => (false, some (fmt.Errorf "conversion failed"))) := by
  unfold strconv.ParseBool boolLiteral
  by_cases h1 : s = "1" ∨ s = "t" ∨ s = "T" ∨ s = "true" ∨ s = "TRUE" ∨ s = "True"
  · have h1m : s ∈ ["1", "t", "T", "TRUE", "true", "True"] := by
      simp only [List.mem_cons, List.mem_singleton, List.not_mem_nil, or_false]
      tauto
    rw [if_pos h1, if_pos h1m]
  · have h1m : ¬ s ∈ ["1", "t", "T", "TRUE", "true", "True"] := by
      simp only [List.mem_cons, List.mem_singleton, List.not_mem_nil, or_false]
      tauto
    rw [if_neg h1, if_neg h1m]
    by_cases h2 : s = "0" ∨ s = "f" ∨ s = "F" ∨ s = "false" ∨ s = "FALSE" ∨ s = "False"
    · have h2m : s ∈ ["0", "f", "F", "FALSE", "false", "False"] := by
        simp only [List.mem_cons, List.mem_singleton, List.not_mem_nil, or_false]
        tauto
      rw [if_pos h2, if_pos h2m]
    · have h2m : ¬ s ∈ ["0", "f", "F", "FALSE", "false", "False"] := by
        simp only [List.mem_cons, List.mem_singleton, List.not_mem_nil, or_false]
        tauto
      rw [if_neg h2, if_neg h2m]

theorem Uint64_padTo8 (b : List Nat) (hb : ∀ x ∈ b, x < 256) :
    binary.LittleEndian.Uint64 (padTo8 b) =
      some (littleEndianValue ((b ++ List.replicate (8 - b.length) 0).take 8)) := by
  rw [padTo8_eq]
  refine (Uint64_of_length_ge _ (by simp; omega) ?_).1
  intro x hx
  rcases List.mem_append.mp hx with h | h
  · exact hb x h
  · rw [(List.mem_replicate.mp h).2]
    norm_num

/-- C11, as the code has it: the fault check is an exact string comparison. For a response with
an empty error message and a non-empty stack, any state other than exactly `FAULT` is treated
as a successful execution and the first stack value is decoded and returned: `TotalSupply` and
`BalanceOf` return the little-endian reading of its bytes `b` (padded with zero bytes, first
eight bytes), `Name` and `Symbol` return `b` as text, `Decimals` returns the number and
`Transfer` the boolean it denotes; only when the value is no decimal literal up to 255, or no
boolean literal, do `Decimals` and `Transfer` return the error `conversion failed`. -/
theorem fault_check_is_exact (r : rpc.InvokeScriptResponse)
    (hmsg : r.ErrorResponse.Error.Message = "") (hstate : r.Result.State ≠ "FAULT")
    (stack : rpc.InvokeStack) (rest : List rpc.InvokeStack)
    (hstack : r.Result.Stack = stack :: rest)
    (b : List Nat) (hb : helper.HexTobytes stack.Value = b)
    (sb : sc.ScriptBuilder) (n : Nep5Helper) (scriptHash address from_ to_ : helper.UInt160)
    (amount : Nat) :
    (responseTo sb n scriptHash "totalSupply" [] = r →
      TotalSupply sb n scriptHash =
        some (littleEndianValue ((b ++ List.replicate (8 - b.length) 0).take 8), none)) ∧
    (responseTo sb n scriptHash "name" [] = r → Name sb n scriptHash = (b, none)) ∧
    (responseTo sb n scriptHash "symbol" [] = r → Symbol sb n scriptHash = (b, none)) ∧
    (responseTo sb n scriptHash "decimals" [] = r →
      (∀ k, IsDecimalLiteral stack.Value k → k ≤ 255 →
        Decimals sb n scriptHash = (k, none)) ∧
      ((¬ ∃ k, IsDecimalLiteral stack.Value k ∧ k ≤ 255) →
        Decimals sb n scriptHash = (0, some (fmt.Errorf "conversion failed")))) ∧
    (responseTo sb n scriptHash "balanceOf" [hash160 address] = r →
      BalanceOf sb n scriptHash address =
        some (littleEndianValue ((b ++ List.replicate (8 - b.length) 0).take 8), none)) ∧
    (responseTo sb n scriptHash "transfer" [hash160 from_, hash160 to_, integer amount] = r →
      Transfer sb n scriptHash from_ to_ amount =
        match boolLiteral stack.Value with
        | some v => (v, none)
        | none => (false, some (fmt.Errorf "conversion failed"))) := by
  have hbytes : ∀ x ∈ b, x < 256 := by
    rw [← hb]
    exact hex.Decode_lt _
  have hu := Uint64_padTo8 b hbytes
  simp only [responseTo, hash160, integer]
  refine ⟨?_, ?_, ?_, ?_, ?_, ?_⟩ <;> intro hr
  · simp [TotalSupply, hr, hmsg, hstate, hstack, hb, hu]
  · simp [Name, hr, hmsg, hstate, hstack, hb]
  · simp [Symbol, hr, hmsg, hstate, hstack, hb]
  · have hD : Decimals sb n scriptHash =
        match strconv.ParseUint stack.Value 10 8 with
        | (_, some _) => (0, some (fmt.Errorf "conversion failed"))
        | (decimals, none) => (decimals % 2 ^ 8, none) := by
      simp [Decimals, hr, hmsg, hstate, hstack]
    rcases ParseUint_decimal stack.Value with ⟨hs, hd, hv, hp⟩ | ⟨hno, v, e, hp⟩
    · have hmod : decimalValue stack.Value.toList % 2 ^ 8 = decimalValue stack.Value.toList :=
        Nat.mod_eq_of_lt (lt_of_le_of_lt hv (by norm_num))
      rw [hD, hp]
      simp only [hmod]
      refine ⟨?_, fun h => absurd ⟨_, ⟨hs, hd, rfl⟩, hv⟩ h⟩
      rintro k ⟨_, _, hk⟩ _
      rw [hk]
    · rw [hD, hp]
      refine ⟨?_, fun _ => rfl⟩
      rintro k ⟨h1, h2, h3⟩ h4
      exact absurd ⟨h1, h2, by rw [h3]; exact h4⟩ hno
  · simp [BalanceOf, hr, hmsg, hstate, hstack, hb, hu]
  · have hT : Transfer sb n scriptHash from_ to_ amount =
        match strconv.ParseBool stack.Value with
        | (_, some _) => (false, some (fmt.Errorf "conversion failed"))
        | (v, none) => (v, none) := by
      simp [Transfer, hr, hmsg, hstate, hstack]
    rw [hT]
    exact ParseBool_boolLiteral stack.Value

/-- Witness of C11 as amended: the states `FAULT, BREAK`, `fault` and the empty text all count as
a successful execution; `e803` is returned as 1000, `4e454f` as the bytes of `NEO`, `8` as 8
and `true` as true. -/
theorem fault_check_is_exact_witness :
    TotalSupply sampleBuilder (sampleHelper (sampleResponse "FAULT, BREAK" ["e803"]))
      sampleHash = some (1000, none) ∧
    Name sampleBuilder (sampleHelper (sampleResponse "fault" ["4e454f"])) sampleHash =
      ([0x4e, 0x45, 0x4f], none) ∧
    Decimals sampleBuilder (sampleHelper (sampleResponse "" ["8"])) sampleHash = (8, none) ∧
    Transfer sampleBuilder (sampleHelper (sampleResponse "" ["true"])) sampleHash sampleHash
      sampleHash 100 = (true, none) :=
  ⟨(fault_check_is_exact (sampleResponse "FAULT, BREAK" ["e803"]) rfl (by decide)
      { Type_ := "ByteArray", Value := "e803" } [] rfl [0xe8, 0x03] (by decide) sampleBuilder
      (sampleHelper (sampleResponse "FAULT, BREAK" ["e803"])) sampleHash sampleHash sampleHash
      sampleHash 100).1 rfl,
    (fault_check_is_exact (sampleResponse "fault" ["4e454f"]) rfl (by decide)
      { Type_ := "ByteArray", Value := "4e454f" } [] rfl [0x4e, 0x45, 0x4f] (by decide)
      sampleBuilder (sampleHelper (sampleResponse "fault" ["4e454f"])) sampleHash sampleHash
      sampleHash sampleHash 100).2.1 rfl,
    ((fault_check_is_exact (sampleResponse "" ["8"]) rfl (by decide)
      { Type_ := "ByteArray", Value := "8" } [] rfl [] (by decide) sampleBuilder
      (sampleHelper (sampleResponse "" ["8"])) sampleHash sampleHash sampleHash sampleHash
      100).2.2.2.1 rfl).1 8 (by decide) (by decide),
    (fault_check_is_exact (sampleResponse "" ["true"]) rfl (by decide)
      { Type_ := "ByteArray", Value := "true" } [] rfl [] (by decide) sampleBuilder
      (sampleHelper (sampleResponse "" ["true"])) sampleHash sampleHash sampleHash sampleHash
      100).2.2.2.2.2 rfl⟩

/-- Counterexample to C11 as stated: a response with an empty error message, the state `fault`
and the one stack value `bad`. `Decimals` does not return a decoded value: it returns the error
`conversion failed` with 0. -/
theorem fault_check_is_exact_counterexample :
    (sampleResponse "fault" ["bad"]).ErrorResponse.Error.Message = "" ∧
    (sampleResponse "fault" ["bad"]).Result.State ≠ "FAULT" ∧
    (sampleResponse "fault" ["bad"]).Result.Stack ≠ [] ∧
    Decimals sampleBuilder (sampleHelper (sampleResponse "fault" ["bad"])) sampleHash =
      (0, some (fmt.Errorf "conversion failed")) := by
  refine ⟨?_, ?_, ?_, ?_⟩ <;> decide

/-- C12: for a response that passes the three checks and whose first stack value hex-decodes to
a byte sequence `b` longer than 8 bytes, `TotalSupply` and `BalanceOf` do not fail: they return
the little-endian value of the first 8 bytes of `b`, which is the little-endian value of all of
`b` modulo `2 ^ 64`; the remaining bytes are ignored. -/
theorem totalSupply_balanceOf_first_eight (r : rpc.InvokeScriptResponse)
    (hmsg : r.ErrorResponse.Error.Message = "") (hstate : r.Result.State ≠ "FAULT")
    (stack : rpc.InvokeStack) (rest : List rpc.InvokeStack)
    (hstack : r.Result.Stack = stack :: rest)
    (b : List Nat) (hb : helper.HexTobytes stack.Value = b) (hlen : 8 < b.length) :
    (∀ (sb : sc.ScriptBuilder) (n : Nep5Helper) (scriptHash : helper.UInt160),
      responseTo sb n scriptHash "totalSupply" [] = r →
        TotalSupply sb n scriptHash = some (littleEndianValue (b.take 8), none)) ∧
    (∀ (sb : sc.ScriptBuilder) (n : Nep5Helper) (scriptHash address : helper.UInt160),
      responseTo sb n scriptHash "balanceOf" [hash160 address] = r →
        BalanceOf sb n scriptHash address = some (littleEndianValue (b.take 8), none)) ∧
    littleEndianValue (b.take 8) = littleEndianValue b % 2 ^ 64 := by
  have hbytes : ∀ x ∈ b, x < 256 := by
    rw [← hb]
    exact hex.Decode_lt _
  have hu := (Uint64_of_length_ge b (le_of_lt hlen) hbytes).1
  have hpad := padTo8_of_length_ge b (le_of_lt hlen)
  refine ⟨?_, ?_, littleEndianValue_take_eq_mod b (le_of_lt hlen) hbytes⟩
  · intro sb n scriptHash hr
    simp only [responseTo] at hr
    simp [TotalSupply, hr, hmsg, hstate, hstack, hb, hpad, hu]
  · intro sb n scriptHash address hr
    simp only [responseTo, hash160] at hr
    simp [BalanceOf, hr, hmsg, hstate, hstack, hb, hpad, hu]

/-- Witness of C12: the nine bytes `e8 03 00 00 00 00 00 00 ff` are read as 1000, the value of
the first eight; the ninth byte is ignored. -/
theorem totalSupply_balanceOf_first_eight_witness :
    TotalSupply sampleBuilder (sampleHelper (sampleResponse "HALT" ["e803000000000000ff"]))
      sampleHash = some (1000, none) ∧
    BalanceOf sampleBuilder (sampleHelper (sampleResponse "HALT" ["e803000000000000ff"]))
      sampleHash sampleHash = some (1000, none) ∧
    (1000 : Nat) = littleEndianValue [0xe8, 0x03, 0, 0, 0, 0, 0, 0, 0xff] % 2 ^ 64 :=
  ⟨(totalSupply_balanceOf_first_eight (sampleResponse "HALT" ["e803000000000000ff"]) rfl
      (by decide) { Type_ := "ByteArray", Value := "e803000000000000ff" } [] rfl
      [0xe8, 0x03, 0, 0, 0, 0, 0, 0, 0xff] (by decide) (by decide)).1
      sampleBuilder (sampleHelper (sampleResponse "HALT" ["e803000000000000ff"])) sampleHash rfl,
    (totalSupply_balanceOf_first_eight (sampleResponse "HALT" ["e803000000000000ff"]) rfl
      (by decide) { Type_ := "ByteArray", Value := "e803000000000000ff" } [] rfl
      [0xe8, 0x03, 0, 0, 0, 0, 0, 0, 0xff] (by decide) (by decide)).2.1
      sampleBuilder (sampleHelper (sampleResponse "HALT" ["e803000000000000ff"])) sampleHash
      sampleHash rfl,
    (totalSupply_balanceOf_first_eight (sampleResponse "HALT" ["e803000000000000ff"]) rfl
      (by decide) { Type_ := "ByteArray", Value := "e803000000000000ff" } [] rfl
      [0xe8, 0x03, 0, 0, 0, 0, 0, 0, 0xff] (by decide) (by decide)).2.2⟩

end nep5
